import Mathlib

/-!
# Thinpadwatch: the FatFs disk glue layer (`diskio.c`)

A shallow embedding of `src/diskio.c`: the RAM disk, the MMC and USB stand-ins and the
four dispatch entry points `disk_status`, `disk_read`, `disk_write`, `disk_ioctl`.

* The file-scope variables of `diskio.c` are the fields of `State`; every C function that
  reads or writes them takes the state and returns the new one.
* A byte buffer is a `List BYTE`; `memcpy` is a splice and is `none` when the copy would
  leave one of the two objects (undefined behaviour in C).
* `LBA_t`, `UINT` and `size_t` are unsigned machine integers.  Their widths come from
  `ff.h` and the target, neither of which is part of the sources, so they are the
  parameter `CTypes`; arithmetic is on `Nat`, reduced modulo `2 ^ width` where C wraps.
-/

namespace Diskio

/-! ## Types and constants of the missing headers -/

/-- One octet (`BYTE`, `uint8_t`). -/
abbrev BYTE := Fin 256

/-- Widths in bits of the three unsigned integer types the sector arithmetic goes through.
`ff.h` (which declares `LBA_t` and `UINT`) and the target ABI (which fixes `size_t`) are
not among the sources, so the widths are a parameter of the model.  `LBA_t` and `UINT`
are taken to be at least as wide as `int`, as in every FatFs configuration, so that
`sector * FF_MAX_SS` and `count * FF_MAX_SS` are computed in `LBA_t` and in `UINT`. -/
structure CTypes where
  LBA_bits : Nat
  UINT_bits : Nat
  size_bits : Nat

/-- A 32-bit target with the default FatFs types: `LBA_t`, `UINT` and `size_t` are all
32 bits wide. -/
def ilp32 : CTypes := ⟨32, 32, 32⟩

/-- A 64-bit host with the default FatFs types: 32-bit `LBA_t` and `UINT`, 64-bit
`size_t`. -/
def lp64 : CTypes := ⟨32, 32, 64⟩

/-- A 64-bit host with 64-bit sector numbers (`FF_LBA64`). -/
def lp64_lba64 : CTypes := ⟨64, 32, 64⟩

/-- Modelled from the spec: `FF_MAX_SS` comes from `ffconf.h`, which is not among the
sources; the spec fixes the sector size at 512 bytes (and so does the comment next to its
use in `RAM_disk_read`). -/
def FF_MAX_SS : Nat := 512

/-- Drive number of the RAM disk (`#define DEV_RAM 0`). -/
def DEV_RAM : Nat := 0
/-- Drive number of the MMC/SD card (`#define DEV_MMC 1`). -/
def DEV_MMC : Nat := 1
/-- Drive number of the USB mass-storage device (`#define DEV_USB 2`). -/
def DEV_USB : Nat := 2

/-- Result code of the disk functions.  In C this is an `enum`, an integer. -/
abbrev DRESULT := Int
/-- Status byte of `disk_status`. -/
abbrev DSTATUS := Nat

/-- Modelled from the spec: `diskio.h` is not among the sources.  The spec lists the closed
set of result codes {OK, generic error, write-protected, not-ready, parameter error}; the
numbers are those of the `DRESULT` enumeration of FatFs, in which OK is zero. -/
def RES_OK : DRESULT := 0
/-- Modelled from the spec: generic error of `diskio.h` (missing), second enumerator. -/
def RES_ERROR : DRESULT := 1
/-- Modelled from the spec: write-protected code of `diskio.h` (missing). -/
def RES_WRPRT : DRESULT := 2
/-- Modelled from the spec: not-ready code of `diskio.h` (missing). -/
def RES_NOTRDY : DRESULT := 3
/-- Modelled from the spec: parameter-error code of `diskio.h` (missing). -/
def RES_PARERR : DRESULT := 4

/-- Modelled from the spec: the not-ready status bit of `diskio.h` (missing); the spec
maps the drive status to {ready(0), not-ready}, and FatFs defines the bit as `0x01`. -/
def STA_NOINIT : DSTATUS := 1

/-- Modelled from the spec: the flush/sync control code of `diskio.h` (missing). -/
def CTRL_SYNC : Nat := 0
/-- Modelled from the spec: the report-sector-size control code of `diskio.h` (missing). -/
def GET_SECTOR_SIZE : Nat := 2
/-- Modelled from the spec: the power control code of `diskio.h` (missing). -/
def CTRL_POWER : Nat := 5

/-! ## The file-scope variables -/

/-- The eight `static` variables of `diskio.c`.  `ram_disk_buffer` is `none` for `NULL`
and otherwise holds the bytes of the allocated block. -/
structure State where
  ram_disk_status : Nat
  ram_disk_buffer : Option (List BYTE)
  ram_disk_size : Nat
  mmc_disk_status : Nat
  mmc_write_protected : Nat
  usb_disk_status : Nat
  ram_write_protected : Nat
  usb_write_protected : Nat

/-- The state at program start: every initialiser in the source is `0` or `NULL`. -/
def initState : State :=
  { ram_disk_status := 0, ram_disk_buffer := none, ram_disk_size := 0,
    mmc_disk_status := 0, mmc_write_protected := 0, usb_disk_status := 0,
    ram_write_protected := 0, usb_write_protected := 0 }

/-! ## Library functions -/

/-- The block returned by a successful `malloc(size)`: `size` bytes whose content is
whatever the allocator left there, given by `garbage`. -/
def malloc_block (size : Nat) (garbage : Nat → BYTE) : List BYTE :=
  (List.range size).map garbage

/-- The C call `memcpy(dst + dOff, src + sOff, n)`: the `n` bytes of `src` from `sOff`
replace the `n` bytes of `dst` from `dOff`.  The result is `none` when either range leaves
its object, which is undefined behaviour in C. -/
def memcpy (dst : List BYTE) (dOff : Nat) (src : List BYTE) (sOff n : Nat) :
    Option (List BYTE) :=
  if dOff + n ≤ dst.length ∧ sOff + n ≤ src.length then
    some (dst.take dOff ++ ((src.drop sOff).take n ++ dst.drop (dOff + n)))
  else none

/-! ## RAM disk -/

/-- The source function `RAM_disk_initialize(size)`.  `alloc` is what `malloc` does in this
call: `none` when it returns `NULL`, `some garbage` when it returns a block.  The old block
is freed first (no trace in the model); on failure `ram_disk_size` keeps its old value. -/
def RAM_disk_initialize (size : Nat) (alloc : Option (Nat → BYTE)) (s : State) :
    Int × State :=
  match alloc with
  | none => (1, { s with ram_disk_buffer := none, ram_disk_status := 1 })
  | some garbage =>
    (0, { s with ram_disk_buffer := some (malloc_block size garbage),
                 ram_disk_size := size, ram_disk_status := 0 })

/-- The source function `RAM_disk_status()`. -/
def RAM_disk_status (s : State) : Int × State :=
  if s.ram_disk_status ≠ 0 then ((s.ram_disk_status : Int), s)
  else if s.ram_disk_buffer.isNone ∨ s.ram_disk_size = 0 then
    (2, { s with ram_disk_status := 2 })
  else (0, s)

/-- The value of `size_t start_offset = sector * FF_MAX_SS`: the product wraps in `LBA_t`
and is then converted to `size_t`. -/
def start_offset (T : CTypes) (sector : Nat) : Nat :=
  (sector * FF_MAX_SS) % 2 ^ T.LBA_bits % 2 ^ T.size_bits

/-- The value of `size_t read_size = count * FF_MAX_SS` (and of `write_size`): the product
wraps in `UINT` and is then converted to `size_t`. -/
def xfer_size (T : CTypes) (count : Nat) : Nat :=
  (count * FF_MAX_SS) % 2 ^ T.UINT_bits % 2 ^ T.size_bits

/-- The value of the `size_t` sum `start_offset + read_size` that the range check compares
with `ram_disk_size`. -/
def end_offset (T : CTypes) (sector count : Nat) : Nat :=
  (start_offset T sector + xfer_size T count) % 2 ^ T.size_bits

/-- The source function `RAM_disk_read(buff, sector, count)`: the returned pair is the
`int` result and the caller's buffer afterwards.  No file-scope variable is written. -/
def RAM_disk_read (T : CTypes) (s : State) (buff : List BYTE) (sector count : Nat) :
    Option (Int × List BYTE) :=
  match s.ram_disk_buffer with
  | none => some (0, buff)
  | some mem =>
    if s.ram_disk_size = 0 then some (0, buff)
    else if end_offset T sector count > s.ram_disk_size then some (0, buff)
    else
      (memcpy buff 0 mem (start_offset T sector) (xfer_size T count)).map
        (fun out => (1, out))

/-- The source function `RAM_is_write_protected()`. -/
def RAM_is_write_protected (s : State) : Int := (s.ram_write_protected : Int)

/-- The source function `RAM_set_write_protected(protected)`. -/
def RAM_set_write_protected (prot : Int) (s : State) : State :=
  { s with ram_write_protected := if prot ≠ 0 then 1 else 0 }

/-- The source function `RAM_disk_write(buff, sector, count)`: the result code and the
state afterwards. -/
def RAM_disk_write (T : CTypes) (s : State) (buff : List BYTE) (sector count : Nat) :
    Option (Int × State) :=
  match s.ram_disk_buffer with
  | none => some (RES_NOTRDY, s)
  | some mem =>
    if s.ram_disk_size = 0 then some (RES_NOTRDY, s)
    else if end_offset T sector count > s.ram_disk_size then some (RES_PARERR, s)
    else
      (memcpy mem (start_offset T sector) buff 0 (xfer_size T count)).map
        (fun mem1 => (RES_OK, { s with ram_disk_buffer := some mem1 }))

/-! ## MMC/SD card -/

/-- The four sector-transfer primitives.  In the source their bodies are empty (only a
comment says that they return 0 on success and non-zero on failure), so what a call
returns, and what a read leaves in the caller's buffer, is an input of the model. -/
structure HW where
  mmc_read_sectors : Nat → Nat → List BYTE → Int × List BYTE
  usb_read_sectors : Nat → Nat → List BYTE → Int × List BYTE
  mmc_write_sectors : Nat → Nat → List BYTE → Int
  usb_write_sectors : Nat → Nat → List BYTE → Int

/-- The source function `MMC_is_present()`: hardcoded to 1. -/
def MMC_is_present : Int := 1
/-- The source function `MMC_is_initialized()`: hardcoded to 1. -/
def MMC_is_initialized : Int := 1
/-- The source function `MMC_is_write_protected()`: hardcoded to 0. -/
def MMC_is_write_protected : Int := 0
/-- The source function `MMC_check_communication()`: hardcoded to 0. -/
def MMC_check_communication : Int := 0

/-- The body of `MMC_disk_status()` with the results of its four probes as arguments. -/
def MMC_disk_status_of (present initialized wprot comm : Int) (s : State) : Int × State :=
  if present = 0 then (1, { s with mmc_disk_status := 1 })
  else if initialized = 0 then (2, { s with mmc_disk_status := 2 })
  else
    let s1 := { s with mmc_write_protected := if wprot ≠ 0 then 1 else 0 }
    if comm ≠ 0 then (3, { s1 with mmc_disk_status := 3 })
    else (0, { s1 with mmc_disk_status := 0 })

/-- The source function `MMC_disk_status()`. -/
def MMC_disk_status (s : State) : Int × State :=
  MMC_disk_status_of MMC_is_present MMC_is_initialized MMC_is_write_protected
    MMC_check_communication s

/-- The source function `MMC_disk_read(buff, sector, count)`. -/
def MMC_disk_read (hw : HW) (buff : List BYTE) (sector count : Nat) : Int × List BYTE :=
  if MMC_is_initialized = 0 then (0, buff)
  else if MMC_is_present = 0 then (0, buff)
  else
    let r := hw.mmc_read_sectors sector count buff
    if r.1 ≠ 0 then (0, r.2) else (1, r.2)

/-- The source function `MMC_disk_write(buff, sector, count)`. -/
def MMC_disk_write (hw : HW) (buff : List BYTE) (sector count : Nat) : Int :=
  if MMC_is_initialized = 0 then RES_NOTRDY
  else if MMC_is_present = 0 then RES_NOTRDY
  else if MMC_is_write_protected ≠ 0 then RES_WRPRT
  else if hw.mmc_write_sectors sector count buff ≠ 0 then RES_ERROR
  else RES_OK

/-! ## USB mass storage -/

/-- The source function `USB_is_connected()`: hardcoded to 1. -/
def USB_is_connected : Int := 1
/-- The source function `USB_is_initialized()`: hardcoded to 1. -/
def USB_is_initialized : Int := 1
/-- The source function `USB_is_ready()`: hardcoded to 1. -/
def USB_is_ready : Int := 1
/-- The source function `USB_check_communication()`: hardcoded to 0. -/
def USB_check_communication : Int := 0

/-- The source function `USB_is_write_protected()`: returns the flag, which no code of
the file ever writes. -/
def USB_is_write_protected (s : State) : Int := (s.usb_write_protected : Int)

/-- The body of `USB_disk_status()` with the results of its four probes as arguments. -/
def USB_disk_status_of (connected initialized ready comm : Int) (s : State) : Int × State :=
  if connected = 0 then (1, { s with usb_disk_status := 1 })
  else if initialized = 0 then (2, { s with usb_disk_status := 2 })
  else if ready = 0 then (3, { s with usb_disk_status := 3 })
  else if comm ≠ 0 then (4, { s with usb_disk_status := 4 })
  else (0, { s with usb_disk_status := 0 })

/-- The source function `USB_disk_status()`. -/
def USB_disk_status (s : State) : Int × State :=
  USB_disk_status_of USB_is_connected USB_is_initialized USB_is_ready
    USB_check_communication s

/-- The source function `USB_disk_read(buff, sector, count)`. -/
def USB_disk_read (hw : HW) (buff : List BYTE) (sector count : Nat) : Int × List BYTE :=
  if USB_is_initialized = 0 then (0, buff)
  else if USB_is_connected = 0 then (0, buff)
  else
    let r := hw.usb_read_sectors sector count buff
    if r.1 ≠ 0 then (0, r.2) else (1, r.2)

/-- The source function `USB_disk_write(buff, sector, count)`. -/
def USB_disk_write (hw : HW) (s : State) (buff : List BYTE) (sector count : Nat) : Int :=
  if USB_is_initialized = 0 then RES_NOTRDY
  else if USB_is_connected = 0 then RES_NOTRDY
  else if USB_is_write_protected s ≠ 0 then RES_WRPRT
  else if hw.usb_write_sectors sector count buff ≠ 0 then RES_ERROR
  else RES_OK

/-! ## Dispatch -/

/-- The source function `disk_status(pdrv)`. -/
def disk_status (pdrv : Nat) (s : State) : DSTATUS × State :=
  if pdrv = DEV_RAM then
    let r := RAM_disk_status s
    if r.1 ≠ 0 then (STA_NOINIT, r.2) else (0, r.2)
  else if pdrv = DEV_MMC then
    let r := MMC_disk_status s
    if r.1 ≠ 0 then (STA_NOINIT, r.2) else (0, r.2)
  else if pdrv = DEV_USB then
    let r := USB_disk_status s
    if r.1 ≠ 0 then (STA_NOINIT, r.2) else (0, r.2)
  else (STA_NOINIT, s)

/-- The source function `disk_read(pdrv, buff, sector, count)`: result code, state and
the caller's buffer afterwards. -/
def disk_read (T : CTypes) (hw : HW) (pdrv : Nat) (s : State) (buff : List BYTE)
    (sector count : Nat) : Option (DRESULT × State × List BYTE) :=
  if pdrv = DEV_RAM then
    (RAM_disk_read T s buff sector count).map
      (fun r => if r.1 ≠ 0 then (RES_OK, s, r.2) else (RES_ERROR, s, r.2))
  else if pdrv = DEV_MMC then
    let r := MMC_disk_read hw buff sector count
    some (if r.1 ≠ 0 then (RES_OK, s, r.2) else (RES_ERROR, s, r.2))
  else if pdrv = DEV_USB then
    let r := USB_disk_read hw buff sector count
    some (if r.1 ≠ 0 then (RES_OK, s, r.2) else (RES_ERROR, s, r.2))
  else some (RES_PARERR, s, buff)

/-- The source function `disk_write(pdrv, buff, sector, count)`.  In each branch the
value returned by the device's write function is tested as a C condition (non-zero is
true), exactly as the source does. -/
def disk_write (T : CTypes) (hw : HW) (pdrv : Nat) (s : State) (buff : List BYTE)
    (sector count : Nat) : Option (DRESULT × State) :=
  if pdrv = DEV_RAM then
    if RAM_is_write_protected s ≠ 0 then some (RES_WRPRT, s)
    else
      (RAM_disk_write T s buff sector count).map
        (fun r => if r.1 ≠ 0 then (RES_OK, r.2) else (RES_ERROR, r.2))
  else if pdrv = DEV_MMC then
    if MMC_is_write_protected ≠ 0 then some (RES_WRPRT, s)
    else if MMC_disk_write hw buff sector count ≠ 0 then some (RES_OK, s)
    else some (RES_ERROR, s)
  else if pdrv = DEV_USB then
    if USB_is_write_protected s ≠ 0 then some (RES_WRPRT, s)
    else if USB_disk_write hw s buff sector count ≠ 0 then some (RES_OK, s)
    else some (RES_ERROR, s)
  else some (RES_PARERR, s)

/-- The source function `disk_ioctl(pdrv, cmd, buff)`.  `buff` is the `uint32_t` the
pointer refers to; the result is the code, the state and that object afterwards. -/
def disk_ioctl (pdrv cmd : Nat) (s : State) (buff : Nat) : DRESULT × State × Nat :=
  if pdrv = DEV_RAM then
    if cmd = CTRL_SYNC then (RES_OK, s, buff) else (RES_PARERR, s, buff)
  else if pdrv = DEV_MMC then
    if cmd = GET_SECTOR_SIZE then (RES_OK, s, 512) else (RES_PARERR, s, buff)
  else if pdrv = DEV_USB then
    if cmd = CTRL_POWER then (RES_OK, s, buff) else (RES_PARERR, s, buff)
  else (RES_PARERR, s, buff)

/-! ## Call sequences -/

/-- One call into the module from outside, with its arguments (and, for
`RAM_disk_initialize`, what `malloc` does; for the block transfers, how the hardware
primitives answer). -/
inductive Op where
  | ram_init (size : Nat) (alloc : Option (Nat → BYTE))
  | ram_status
  | ram_read (buff : List BYTE) (sector count : Nat)
  | ram_write (buff : List BYTE) (sector count : Nat)
  | ram_set_write_protected (prot : Int)
  | status (pdrv : Nat)
  | read (hw : HW) (pdrv : Nat) (buff : List BYTE) (sector count : Nat)
  | write (hw : HW) (pdrv : Nat) (buff : List BYTE) (sector count : Nat)
  | ioctl (pdrv cmd : Nat) (buff : Nat)

/-- The state after one call; `none` when the call runs into undefined behaviour. -/
def step (T : CTypes) (op : Op) (s : State) : Option State :=
  match op with
  | .ram_init size alloc => some ( RAM_disk_initialize size alloc s).2
  | .ram_status => some (RAM_disk_status s).2
  | .ram_read buff sector count => (RAM_disk_read T s buff sector count).map (fun _ => s)
  | .ram_write buff sector count => (RAM_disk_write T s buff sector count).map (fun r => r.2)
  | .ram_set_write_protected prot => some (RAM_set_write_protected prot s)
  | .status pdrv => some (disk_status pdrv s).2
  | .read hw pdrv buff sector count =>
    (disk_read T hw pdrv s buff sector count).map (fun r => r.2.1)
  | .write hw pdrv buff sector count =>
    (disk_write T hw pdrv s buff sector count).map (fun r => r.2)
  | .ioctl pdrv cmd buff => some (disk_ioctl pdrv cmd s buff).2.1

/-- The state after a sequence of calls. -/
def run (T : CTypes) : List Op → State → Option State
  | [], s => some s
  | op :: ops, s => (step T op s).bind (run T ops)

/-- A state the program can be in: one that some sequence of calls reaches from the
initial state. -/
def Reachable (T : CTypes) (s : State) : Prop :=
  ∃ ops, run T ops initState = some s

/-! ## Concrete data used to evaluate the code -/

/-- The RAM disk of the spec's scenario: `RAM_disk_initialize(4096)` succeeds at program
start and the allocator hands out a zero-filled block. -/
def ram4096 : State := ( RAM_disk_initialize 4096 (some (fun _ => 0)) initState).2

/-- One sector of `0xAA` bytes, the data of the spec's scenario. -/
def sectorAA : List BYTE := List.replicate 512 0xAA

/-- The RAM disk's bytes after the sector of `0xAA` has been copied to byte offset 3584. -/
def mem7 : List BYTE :=
  (malloc_block 4096 (fun _ => 0)).take 3584 ++
    ((sectorAA.drop 0).take 512 ++ (malloc_block 4096 (fun _ => 0)).drop (3584 + 512))

/-- Sector-transfer hardware that reports success on every call and leaves the read
buffer as it is; used where a concrete `HW` is needed. -/
def hw_idle : HW :=
  ⟨fun _ _ b => (0, b), fun _ _ b => (0, b), fun _ _ _ => 0, fun _ _ _ => 0⟩

/-- Sector-transfer hardware that reports failure (the non-zero value 1) on every call. -/
def hw_failing : HW :=
  ⟨fun _ _ b => (1, b), fun _ _ b => (1, b), fun _ _ _ => 1, fun _ _ _ => 1⟩

/-- A ready RAM disk of 2 ^ 32 bytes (4 GiB): `RAM_disk_initialize(4294967296)` succeeds
at program start on a host with a 64-bit `size_t`, the block zero-filled. -/
def ram4G : State := ( RAM_disk_initialize (2 ^ 32) (some (fun _ => 0)) initState).2

/-- An input buffer of 2 ^ 32 bytes `0xAA`, the data of 8388608 sectors. -/
def buf4G : List BYTE := List.replicate (2 ^ 32) 0xAA

/-- An output buffer of 2 ^ 32 zero bytes. -/
def out4G : List BYTE := List.replicate (2 ^ 32) 0

/-! ## The state of each device family -/

/-- The variables of the RAM disk: status byte, block, capacity and write-protect flag. -/
def ram_part (s : State) : Nat × Option (List BYTE) × Nat × Nat :=
  (s.ram_disk_status, s.ram_disk_buffer, s.ram_disk_size, s.ram_write_protected)

/-- The variables of the MMC/SD card: status byte and write-protect flag. -/
def mmc_part (s : State) : Nat × Nat :=
  (s.mmc_disk_status, s.mmc_write_protected)

/-- The variables of the USB device: status byte and write-protect flag. -/
def usb_part (s : State) : Nat × Nat :=
  (s.usb_disk_status, s.usb_write_protected)

/-- A call on drive `pdrv` that takes the state from `s` to `s1` has left the variables
of the other device families as they were. -/
def OthersUnchanged (pdrv : Nat) (s s1 : State) : Prop :=
  (pdrv ≠ DEV_RAM → ram_part s1 = ram_part s) ∧
  (pdrv ≠ DEV_MMC → mmc_part s1 = mmc_part s) ∧
  (pdrv ≠ DEV_USB → usb_part s1 = usb_part s)

/-! ## Invariants of the RAM disk variables -/

/-- The allocated block, when there is one, has `ram_disk_size` bytes. -/
def BlockMatchesSize (s : State) : Prop :=
  ∀ mem, s.ram_disk_buffer = some mem → mem.length = s.ram_disk_size

/-- The latched error byte is non-zero only while the store is not ready. -/
def StatusLatchedOnlyNotReady (s : State) : Prop :=
  s.ram_disk_status ≠ 0 → s.ram_disk_buffer = none ∨ s.ram_disk_size = 0

/-- The invariant of the RAM disk variables: the block has `ram_disk_size` bytes and the
error byte is non-zero only while the store is not ready. -/
def RamInv (s : State) : Prop :=
  BlockMatchesSize s ∧ StatusLatchedOnlyNotReady s

/-! ## Sector arithmetic -/

theorem start_offset_le (T : CTypes) (sector : Nat) :
    start_offset T sector ≤ sector * FF_MAX_SS := by
  unfold start_offset
  exact (Nat.mod_le _ _).trans (Nat.mod_le _ _)

theorem xfer_size_le (T : CTypes) (count : Nat) :
    xfer_size T count ≤ count * FF_MAX_SS := by
  unfold xfer_size
  exact (Nat.mod_le _ _).trans (Nat.mod_le _ _)

theorem end_offset_le (T : CTypes) (sector count : Nat) :
    end_offset T sector count ≤ start_offset T sector + xfer_size T count := by
  unfold end_offset
  exact Nat.mod_le _ _

theorem start_offset_exact (T : CTypes) (sector : Nat)
    (h1 : sector * FF_MAX_SS < 2 ^ T.LBA_bits) (h2 : sector * FF_MAX_SS < 2 ^ T.size_bits) :
    start_offset T sector = sector * FF_MAX_SS := by
  unfold start_offset
  rw [Nat.mod_eq_of_lt h1, Nat.mod_eq_of_lt h2]

theorem xfer_size_exact (T : CTypes) (count : Nat)
    (h1 : count * FF_MAX_SS < 2 ^ T.UINT_bits) (h2 : count * FF_MAX_SS < 2 ^ T.size_bits) :
    xfer_size T count = count * FF_MAX_SS := by
  unfold xfer_size
  rw [Nat.mod_eq_of_lt h1, Nat.mod_eq_of_lt h2]

theorem end_offset_exact (T : CTypes) (sector count : Nat)
    (h1 : sector * FF_MAX_SS < 2 ^ T.LBA_bits) (h2 : count * FF_MAX_SS < 2 ^ T.UINT_bits)
    (h3 : sector * FF_MAX_SS + count * FF_MAX_SS < 2 ^ T.size_bits) :
    end_offset T sector count = sector * FF_MAX_SS + count * FF_MAX_SS := by
  unfold end_offset
  rw [start_offset_exact T sector h1 (by omega), xfer_size_exact T count h2 (by omega),
    Nat.mod_eq_of_lt h3]

/-! ## `memcpy` -/

theorem memcpy_eq_some (dst : List BYTE) (dOff : Nat) (src : List BYTE) (sOff n : Nat)
    (hd : dOff + n ≤ dst.length) (hs : sOff + n ≤ src.length) :
    memcpy dst dOff src sOff n =
      some (dst.take dOff ++ ((src.drop sOff).take n ++ dst.drop (dOff + n))) := by
  unfold memcpy
  rw [if_pos ⟨hd, hs⟩]

theorem memcpy_eq_none (dst : List BYTE) (dOff : Nat) (src : List BYTE) (sOff n : Nat)
    (h : dst.length < dOff + n ∨ src.length < sOff + n) :
    memcpy dst dOff src sOff n = none := by
  unfold memcpy
  rw [if_neg]
  omega

theorem memcpy_bounds {dst src r : List BYTE} {dOff sOff n : Nat}
    (h : memcpy dst dOff src sOff n = some r) :
    dOff + n ≤ dst.length ∧ sOff + n ≤ src.length := by
  unfold memcpy at h
  by_contra hc
  rw [if_neg hc] at h
  exact Option.noConfusion h

theorem memcpy_result {dst src r : List BYTE} {dOff sOff n : Nat}
    (h : memcpy dst dOff src sOff n = some r) :
    r = dst.take dOff ++ ((src.drop sOff).take n ++ dst.drop (dOff + n)) := by
  have hb := memcpy_bounds h
  rw [memcpy_eq_some dst dOff src sOff n hb.1 hb.2] at h
  exact (Option.some.inj h).symm

theorem memcpy_length {dst src r : List BYTE} {dOff sOff n : Nat}
    (h : memcpy dst dOff src sOff n = some r) : r.length = dst.length := by
  have hb := memcpy_bounds h
  rw [memcpy_result h]
  simp only [List.length_append, List.length_take, List.length_drop]
  omega

/-- The copied window of the destination holds the source bytes. -/
theorem memcpy_window {dst src r : List BYTE} {dOff sOff n : Nat}
    (h : memcpy dst dOff src sOff n = some r) :
    (r.drop dOff).take n = (src.drop sOff).take n := by
  have hb := memcpy_bounds h
  rw [memcpy_result h]
  have h1 : (dst.take dOff).length = dOff := by
    rw [List.length_take]; omega
  have h2 : ((src.drop sOff).take n).length = n := by
    rw [List.length_take, List.length_drop]; omega
  rw [List.drop_left' h1, List.take_left' h2]

/-! ## The three outcomes of the RAM transfers -/

theorem RAM_disk_read_not_ready (T : CTypes) (s : State) (buff : List BYTE)
    (sector count : Nat) (h : s.ram_disk_buffer = none ∨ s.ram_disk_size = 0) :
    RAM_disk_read T s buff sector count = some (0, buff) := by
  unfold RAM_disk_read
  rcases h with h | h
  · rw [h]
  · cases s.ram_disk_buffer with
    | none => rfl
    | some mem => simp only [h, if_true]

theorem RAM_disk_read_out_of_range (T : CTypes) (s : State) (buff : List BYTE)
    (sector count : Nat) (h : s.ram_disk_size < end_offset T sector count) :
    RAM_disk_read T s buff sector count = some (0, buff) := by
  unfold RAM_disk_read
  cases s.ram_disk_buffer with
  | none => rfl
  | some mem =>
    by_cases h0 : s.ram_disk_size = 0
    · simp only [h0, if_true]
    · simp only [h0, if_false, gt_iff_lt, h, if_true]

theorem RAM_disk_read_in_range (T : CTypes) (s : State) (buff mem : List BYTE)
    (sector count : Nat) (hb : s.ram_disk_buffer = some mem) (h0 : s.ram_disk_size ≠ 0)
    (h : end_offset T sector count ≤ s.ram_disk_size) :
    RAM_disk_read T s buff sector count =
      (memcpy buff 0 mem (start_offset T sector) (xfer_size T count)).map
        (fun out => (1, out)) := by
  unfold RAM_disk_read
  rw [hb]
  simp only [h0, if_false, gt_iff_lt, Nat.not_lt.mpr h]

theorem RAM_disk_write_not_ready (T : CTypes) (s : State) (buff : List BYTE)
    (sector count : Nat) (h : s.ram_disk_buffer = none ∨ s.ram_disk_size = 0) :
    RAM_disk_write T s buff sector count = some (RES_NOTRDY, s) := by
  unfold RAM_disk_write
  rcases h with h | h
  · rw [h]
  · cases s.ram_disk_buffer with
    | none => rfl
    | some mem => simp only [h, if_true]

theorem RAM_disk_write_out_of_range (T : CTypes) (s : State) (buff mem : List BYTE)
    (sector count : Nat) (hb : s.ram_disk_buffer = some mem) (h0 : s.ram_disk_size ≠ 0)
    (h : s.ram_disk_size < end_offset T sector count) :
    RAM_disk_write T s buff sector count = some (RES_PARERR, s) := by
  unfold RAM_disk_write
  rw [hb]
  simp only [h0, if_false, gt_iff_lt, h, if_true]

theorem RAM_disk_write_in_range (T : CTypes) (s : State) (buff mem : List BYTE)
    (sector count : Nat) (hb : s.ram_disk_buffer = some mem) (h0 : s.ram_disk_size ≠ 0)
    (h : end_offset T sector count ≤ s.ram_disk_size) :
    RAM_disk_write T s buff sector count =
      (memcpy mem (start_offset T sector) buff 0 (xfer_size T count)).map
        (fun mem1 => (RES_OK, { s with ram_disk_buffer := some mem1 })) := by
  unfold RAM_disk_write
  rw [hb]
  simp only [h0, if_false, gt_iff_lt, Nat.not_lt.mpr h]

/-- What `disk_write` makes of the RAM disk's answer when the write-protect flag is
clear: the answer is tested as a condition. -/
theorem disk_write_RAM_unprotected (T : CTypes) (hw : HW) (s : State) (buff : List BYTE)
    (sector count : Nat) (h : s.ram_write_protected = 0) :
    disk_write T hw DEV_RAM s buff sector count =
      (RAM_disk_write T s buff sector count).map
        (fun r => if r.1 ≠ 0 then (RES_OK, r.2) else (RES_ERROR, r.2)) := by
  simp [disk_write, RAM_is_write_protected, h]

theorem malloc_block_length (size : Nat) (garbage : Nat → BYTE) :
    (malloc_block size garbage).length = size := by
  simp [malloc_block]

theorem sectorAA_length : sectorAA.length = 512 := List.length_replicate _ _

theorem ram4096_buffer :
    ram4096.ram_disk_buffer = some (malloc_block 4096 (fun _ => 0)) := rfl

theorem ram4096_size : ram4096.ram_disk_size = 4096 := rfl

/-! ## C1 -/

/-- C1 (evaluation at the failing input): after `RAM_disk_initialize(4096)` has succeeded
(it returns 0), with the write-protect flag clear, `disk_write(DEV_RAM, buf, 7, 1)` stores
the sector at byte offset 3584 and returns `RES_ERROR`, and `disk_write(DEV_RAM, buf, 8, 1)`
stores nothing and returns `RES_OK`: the outcome of `RAM_disk_write` is reported
inverted. -/
theorem C1_disk_write_RAM_reports_inverted :
    ( RAM_disk_initialize 4096 (some (fun _ => 0)) initState).1 = 0 ∧
    ram4096.ram_write_protected = 0 ∧
    (∀ hw, ∃ s1 mem1,
      disk_write ilp32 hw DEV_RAM ram4096 sectorAA 7 1 = some (RES_ERROR, s1) ∧
      s1.ram_disk_buffer = some mem1 ∧ (mem1.drop 3584).take 512 = sectorAA) ∧
    (∀ hw, disk_write ilp32 hw DEV_RAM ram4096 sectorAA 8 1 = some (RES_OK, ram4096)) := by
  have e7 : end_offset ilp32 7 1 = 4096 := by decide
  have o7 : start_offset ilp32 7 = 3584 := by decide
  have x1 : xfer_size ilp32 1 = 512 := by decide
  have e8 : end_offset ilp32 8 1 = 4608 := by decide
  refine ⟨rfl, rfl, fun hw => ?_, fun hw => ?_⟩
  · have hm : memcpy (malloc_block 4096 (fun _ => 0)) 3584 sectorAA 0 512 =
        some mem7 :=
      memcpy_eq_some _ _ _ _ _ (by rw [malloc_block_length]) (by rw [sectorAA_length])
    have hw7 : (mem7.drop 3584).take 512 = sectorAA := by
      rw [memcpy_window hm, List.drop_zero]
      exact List.take_of_length_le (by rw [sectorAA_length])
    refine ⟨{ ram4096 with ram_disk_buffer := some mem7 }, mem7, ?_, rfl, hw7⟩
    rw [disk_write_RAM_unprotected _ _ _ _ _ _ rfl,
      RAM_disk_write_in_range ilp32 ram4096 sectorAA _ 7 1 ram4096_buffer (by decide)
        (by rw [e7, ram4096_size]),
      o7, x1, hm]
    rfl
  · rw [disk_write_RAM_unprotected _ _ _ _ _ _ rfl,
      RAM_disk_write_out_of_range ilp32 ram4096 sectorAA _ 8 1 ram4096_buffer (by decide)
        (by rw [e8, ram4096_size]; decide)]
    rfl

/-! ## Round trip on the RAM block store -/

/-- Round trip when the byte length is representable.  For a ready store (block allocated, of
`ram_disk_size` bytes, capacity non-zero and a `size_t` value), every `(sector, count)`
with `(sector + count) * 512 <= capacity` and every input buffer of `count * 512` bytes
(a length representable in `UINT`, as it always is when `size_t` is no wider than `UINT`),
`RAM_disk_write` returns `RES_OK` and a following `RAM_disk_read` of the same range into a
buffer with room for it returns 1 and leaves the written bytes in its first `count * 512`
positions. -/
theorem RAM_write_then_read_round_trip (T : CTypes) (s : State) (mem buf out : List BYTE)
    (sector count : Nat)
    (hb : s.ram_disk_buffer = some mem) (hlen : mem.length = s.ram_disk_size)
    (h0 : s.ram_disk_size ≠ 0) (hC : s.ram_disk_size < 2 ^ T.size_bits)
    (hr : (sector + count) * FF_MAX_SS ≤ s.ram_disk_size)
    (hbuf : buf.length = count * FF_MAX_SS) (hout : count * FF_MAX_SS ≤ out.length)
    (hU : count * FF_MAX_SS < 2 ^ T.UINT_bits) :
    ∃ s1 out1, RAM_disk_write T s buf sector count = some (RES_OK, s1) ∧
      RAM_disk_read T s1 out sector count = some (1, out1) ∧
      out1.take (count * FF_MAX_SS) = buf := by
  have hsplit : (sector + count) * FF_MAX_SS = sector * FF_MAX_SS + count * FF_MAX_SS :=
    Nat.add_mul _ _ _
  have hso := start_offset_le T sector
  have hx : xfer_size T count = count * FF_MAX_SS :=
    xfer_size_exact T count hU (by omega)
  have he : end_offset T sector count ≤ s.ram_disk_size := by
    have := end_offset_le T sector count
    omega
  obtain ⟨mem1, hm⟩ : ∃ r, memcpy mem (start_offset T sector) buf 0 (count * FF_MAX_SS) =
      some r := ⟨_, memcpy_eq_some _ _ _ _ _ (by omega) (by omega)⟩
  have hl := memcpy_length hm
  obtain ⟨out1, ho⟩ : ∃ r, memcpy out 0 mem1 (start_offset T sector) (count * FF_MAX_SS) =
      some r := ⟨_, memcpy_eq_some _ _ _ _ _ (by omega) (by omega)⟩
  refine ⟨{ s with ram_disk_buffer := some mem1 }, out1, ?_, ?_, ?_⟩
  · rw [RAM_disk_write_in_range T s buf mem sector count hb h0 he, hx, hm]
    rfl
  · rw [RAM_disk_read_in_range T { s with ram_disk_buffer := some mem1 } out mem1 sector
      count rfl h0 he, hx, ho]
    rfl
  · have hw := memcpy_window ho
    rw [List.drop_zero] at hw
    rw [hw, memcpy_window hm, List.drop_zero]
    exact List.take_of_length_le (by omega)

/-- The spec's scenario.  On the 4096-byte RAM disk, writing one sector of
`0xAA` at sector 0 and reading sector 0 back returns the sector. -/
theorem RAM_round_trip_scenario :
    ∃ s1 out1, RAM_disk_write ilp32 ram4096 sectorAA 0 1 = some (RES_OK, s1) ∧
      RAM_disk_read ilp32 s1 (List.replicate 512 0) 0 1 = some (1, out1) ∧
      out1.take (1 * FF_MAX_SS) = sectorAA :=
  RAM_write_then_read_round_trip ilp32 ram4096 (malloc_block 4096 (fun _ => 0)) sectorAA
    (List.replicate 512 0) 0 1 ram4096_buffer (malloc_block_length _ _) (by decide)
    (by decide) (by decide) sectorAA_length
    (by rw [List.length_replicate]; decide) (by decide)

/-! ## C2: the round trip and the wrap of the byte length -/

/-- A `memcpy` of zero bytes at offset 0 leaves the destination as it is. -/
theorem memcpy_nothing (dst src : List BYTE) : memcpy dst 0 src 0 0 = some dst := by
  rw [memcpy_eq_some dst 0 src 0 0 (Nat.zero_le _) (Nat.zero_le _)]
  simp

/-- Storing the block a state already holds gives the same state. -/
theorem State_same_buffer (s : State) (mem : List BYTE) (hb : s.ram_disk_buffer = some mem) :
    { s with ram_disk_buffer := some mem } = s := by
  obtain ⟨st, blk, sz, ms, mw, us, rw, uw⟩ := s
  have e : blk = some mem := hb
  rw [e]

theorem ram4G_buffer :
    ram4G.ram_disk_buffer = some (malloc_block (2 ^ 32) (fun _ => 0)) := rfl

theorem ram4G_size : ram4G.ram_disk_size = 2 ^ 32 := rfl

/-- C2 (evaluation at the failing input): with 32-bit `UINT` and 64-bit `size_t`, on a
ready RAM disk of capacity 2 ^ 32 the request `sector = 0, count = 8388608` satisfies
`(sector + count) * 512 <= capacity` and the input buffer has `count * 512` bytes, but
`count * FF_MAX_SS` wraps to 0 in `UINT`: `RAM_disk_write` returns `RES_OK` and stores
nothing (the state is as before), and the following `RAM_disk_read` returns 1 and leaves
the output buffer as it was, so its bytes (zeros) are not the bytes of the input buffer
(`0xAA`). -/
theorem C2_length_wrap_breaks_round_trip :
    ram4G.ram_disk_buffer = some (malloc_block (2 ^ 32) (fun _ => 0)) ∧
    (malloc_block (2 ^ 32) (fun _ => 0)).length = ram4G.ram_disk_size ∧
    ram4G.ram_disk_size ≠ 0 ∧
    ram4G.ram_disk_size < 2 ^ lp64.size_bits ∧
    (0 + 8388608) * FF_MAX_SS ≤ ram4G.ram_disk_size ∧
    8388608 < 2 ^ lp64.UINT_bits ∧
    buf4G.length = 8388608 * FF_MAX_SS ∧
    out4G.length = 8388608 * FF_MAX_SS ∧
    xfer_size lp64 8388608 = 0 ∧
    RAM_disk_write lp64 ram4G buf4G 0 8388608 = some (RES_OK, ram4G) ∧
    RAM_disk_read lp64 ram4G out4G 0 8388608 = some (1, out4G) ∧
    out4G.take (8388608 * FF_MAX_SS) ≠ buf4G := by
  have hn : (2 : Nat) ^ 32 = 8388608 * FF_MAX_SS := by decide
  have hsz : ram4G.ram_disk_size ≠ 0 := by rw [ram4G_size]; decide
  have hbl : buf4G.length = 8388608 * FF_MAX_SS := (List.length_replicate _ _).trans hn
  have hol : out4G.length = 8388608 * FF_MAX_SS := (List.length_replicate _ _).trans hn
  have x : xfer_size lp64 8388608 = 0 := by decide
  have o : start_offset lp64 0 = 0 := by decide
  have e : end_offset lp64 0 8388608 = 0 := by decide
  have he : end_offset lp64 0 8388608 ≤ ram4G.ram_disk_size := by rw [e]; exact Nat.zero_le _
  refine ⟨ram4G_buffer, (malloc_block_length _ _).trans ram4G_size.symm, hsz,
    by rw [ram4G_size]; decide, by rw [ram4G_size]; decide, by decide, hbl, hol, x, ?_, ?_, ?_⟩
  · rw [RAM_disk_write_in_range lp64 ram4G buf4G _ 0 8388608 ram4G_buffer hsz he, o, x,
      memcpy_nothing, Option.map_some', State_same_buffer ram4G _ ram4G_buffer]
  · rw [RAM_disk_read_in_range lp64 ram4G out4G _ 0 8388608 ram4G_buffer hsz he, o, x,
      memcpy_nothing, Option.map_some']
  · rw [List.take_of_length_le (Nat.le_of_eq hol)]
    intro h
    have h1 : (0 : BYTE) = 0xAA :=
      (List.replicate_right_inj (by decide : (2 : Nat) ^ 32 ≠ 0)).mp h
    exact absurd h1 (by decide)

/-! ## C3 and C4: the range check in fixed-width arithmetic -/

theorem malloc_block_const (size : Nat) (c : BYTE) :
    malloc_block size (fun _ => c) = List.replicate size c := by
  simp [malloc_block]

/-- The transfers look at the sector number only through `start_offset` and
`end_offset`: two requests on which these agree are served alike. -/
theorem RAM_disk_read_congr (T : CTypes) (s : State) (buff : List BYTE)
    (sector sector1 count : Nat) (hs : start_offset T sector = start_offset T sector1) :
    RAM_disk_read T s buff sector count = RAM_disk_read T s buff sector1 count := by
  unfold RAM_disk_read end_offset
  rw [hs]

theorem RAM_disk_write_congr (T : CTypes) (s : State) (buff : List BYTE)
    (sector sector1 count : Nat) (hs : start_offset T sector = start_offset T sector1) :
    RAM_disk_write T s buff sector count = RAM_disk_write T s buff sector1 count := by
  unfold RAM_disk_write end_offset
  rw [hs]

/-- Without wrap-around (byte offset, length and their sum all representable) a request
that ends beyond the capacity of a ready store is rejected by both transfers and the
state and the caller's buffer stay as they were. -/
theorem RAM_out_of_range_rejected (T : CTypes) (s : State) (mem buff : List BYTE)
    (sector count : Nat) (hb : s.ram_disk_buffer = some mem) (h0 : s.ram_disk_size ≠ 0)
    (h1 : sector * FF_MAX_SS < 2 ^ T.LBA_bits) (h2 : count * FF_MAX_SS < 2 ^ T.UINT_bits)
    (h3 : sector * FF_MAX_SS + count * FF_MAX_SS < 2 ^ T.size_bits)
    (hr : s.ram_disk_size < (sector + count) * FF_MAX_SS) :
    RAM_disk_read T s buff sector count = some (0, buff) ∧
    RAM_disk_write T s buff sector count = some (RES_PARERR, s) := by
  have he : s.ram_disk_size < end_offset T sector count := by
    rw [end_offset_exact T sector count h1 h2 h3, ← Nat.add_mul]
    exact hr
  exact ⟨RAM_disk_read_out_of_range T s buff sector count he,
    RAM_disk_write_out_of_range T s buff mem sector count hb h0 he⟩

/-- C3 (evaluation at the failing input): with 32-bit `LBA_t`, `UINT` and `size_t`, on the
ready 4096-byte RAM disk, the request `sector = 8388607, count = 2` has a byte offset
(4294966784) and a length (1024) that both fit in 32 bits and ends far beyond the
capacity, yet the `size_t` sum wraps to 512, the range check passes, and both transfers
go on to `memcpy` at offset 4294966784 of the 4096-byte block (undefined behaviour,
`none`) instead of returning 0 and `RES_PARERR`.  With 64-bit `LBA_t` and `size_t` the
same happens at `sector = 2 ^ 55 - 1, count = 2`.  The claim's own witness
(`sector = 8, count = 1`) is rejected as stated. -/
theorem C3_sum_wrap_not_rejected :
    8388607 * FF_MAX_SS < 2 ^ ilp32.LBA_bits ∧ 2 * FF_MAX_SS < 2 ^ ilp32.UINT_bits ∧
    ram4096.ram_disk_size < (8388607 + 2) * FF_MAX_SS ∧
    start_offset ilp32 8388607 = 4294966784 ∧ xfer_size ilp32 2 = 1024 ∧
    end_offset ilp32 8388607 2 = 512 ∧
    (∀ out, RAM_disk_read ilp32 ram4096 out 8388607 2 = none) ∧
    (∀ buf, RAM_disk_write ilp32 ram4096 buf 8388607 2 = none) ∧
    (∀ out, RAM_disk_read lp64_lba64 ram4096 out (2 ^ 55 - 1) 2 = none) ∧
    (∀ buf, RAM_disk_write lp64_lba64 ram4096 buf (2 ^ 55 - 1) 2 = none) ∧
    (∀ out, RAM_disk_read ilp32 ram4096 out 8 1 = some (0, out)) ∧
    (∀ buf, RAM_disk_write ilp32 ram4096 buf 8 1 = some (RES_PARERR, ram4096)) := by
  have e64 : end_offset lp64_lba64 (2 ^ 55 - 1) 2 = 512 := by decide
  have o64 : start_offset lp64_lba64 (2 ^ 55 - 1) = 18446744073709551104 := by decide
  have x64 : xfer_size lp64_lba64 2 = 1024 := by decide
  have e : end_offset ilp32 8388607 2 = 512 := by decide
  have o : start_offset ilp32 8388607 = 4294966784 := by decide
  have x : xfer_size ilp32 2 = 1024 := by decide
  have e8 : end_offset ilp32 8 1 = 4608 := by decide
  refine ⟨by decide, by decide, by rw [ram4096_size]; decide, o, x, e, ?_, ?_, ?_, ?_,
    ?_, ?_⟩
  · intro out
    rw [RAM_disk_read_in_range ilp32 ram4096 out _ 8388607 2 ram4096_buffer (by decide)
      (by rw [e, ram4096_size]; decide), o, x,
      memcpy_eq_none _ _ _ _ _ (Or.inr (by rw [malloc_block_length]; decide))]
    rfl
  · intro buf
    rw [RAM_disk_write_in_range ilp32 ram4096 buf _ 8388607 2 ram4096_buffer (by decide)
      (by rw [e, ram4096_size]; decide), o, x,
      memcpy_eq_none _ _ _ _ _ (Or.inl (by rw [malloc_block_length]; decide))]
    rfl
  · intro out
    rw [RAM_disk_read_in_range lp64_lba64 ram4096 out _ (2 ^ 55 - 1) 2 ram4096_buffer
      (by decide) (by rw [e64, ram4096_size]; decide), o64, x64,
      memcpy_eq_none _ _ _ _ _ (Or.inr (by rw [malloc_block_length]; decide))]
    rfl
  · intro buf
    rw [RAM_disk_write_in_range lp64_lba64 ram4096 buf _ (2 ^ 55 - 1) 2 ram4096_buffer
      (by decide) (by rw [e64, ram4096_size]; decide), o64, x64,
      memcpy_eq_none _ _ _ _ _ (Or.inl (by rw [malloc_block_length]; decide))]
    rfl
  · intro out
    exact RAM_disk_read_out_of_range ilp32 ram4096 out 8 1 (by rw [e8, ram4096_size]; decide)
  · intro buf
    exact RAM_disk_write_out_of_range ilp32 ram4096 buf _ 8 1 ram4096_buffer (by decide)
      (by rw [e8, ram4096_size]; decide)

/-- C4 (evaluation at the failing input): the product `sector * FF_MAX_SS` wraps.  With
32-bit `LBA_t`, for `sector = 8388608 = 2 ^ 23` and `count = 1` the true end offset
`(sector + count) * 512 = 4294967808` exceeds the capacity 4096, but `start_offset` is
computed as 0, so in every state both transfers treat the request exactly like the one
for sector 0: on the ready 4096-byte RAM disk `RAM_disk_read` returns 1 with the bytes at
offsets `[0, 512)` and `RAM_disk_write` returns `RES_OK` after overwriting the bytes at
offsets `[0, 512)`.  The same happens with a 64-bit `size_t` (the product still wraps in
the 32-bit `LBA_t`) and with 64-bit sector numbers at `sector = 2 ^ 55`. -/
theorem C4_range_check_wraps :
    ram4096.ram_disk_size < (8388608 + 1) * FF_MAX_SS ∧
    start_offset ilp32 8388608 = 0 ∧ end_offset ilp32 8388608 1 = 512 ∧
    (∀ s buff, RAM_disk_read ilp32 s buff 8388608 1 = RAM_disk_read ilp32 s buff 0 1) ∧
    (∀ s buff, RAM_disk_write ilp32 s buff 8388608 1 = RAM_disk_write ilp32 s buff 0 1) ∧
    (∃ out1, RAM_disk_read ilp32 ram4096 (List.replicate 512 0xFF) 8388608 1 = some (1, out1) ∧
      out1 = List.replicate 512 0) ∧
    (∃ s1 mem1, RAM_disk_write ilp32 ram4096 sectorAA 8388608 1 = some (RES_OK, s1) ∧
      s1.ram_disk_buffer = some mem1 ∧ mem1.take 512 = sectorAA) ∧
    (∀ s buff, RAM_disk_read lp64 s buff 8388608 1 = RAM_disk_read lp64 s buff 0 1) ∧
    (∀ s buff, RAM_disk_write lp64 s buff 8388608 1 = RAM_disk_write lp64 s buff 0 1) ∧
    (∀ s buff, RAM_disk_read lp64_lba64 s buff (2 ^ 55) 1 = RAM_disk_read lp64_lba64 s buff 0 1) ∧
    (∀ s buff, RAM_disk_write lp64_lba64 s buff (2 ^ 55) 1 =
      RAM_disk_write lp64_lba64 s buff 0 1) := by
  have o : start_offset ilp32 8388608 = start_offset ilp32 0 := by decide
  have o64 : start_offset lp64_lba64 (2 ^ 55) = start_offset lp64_lba64 0 := by decide
  have o32 : start_offset lp64 8388608 = start_offset lp64 0 := by decide
  have o0 : start_offset ilp32 0 = 0 := by decide
  have x : xfer_size ilp32 1 = 512 := by decide
  have e0 : end_offset ilp32 0 1 = 512 := by decide
  refine ⟨by rw [ram4096_size]; decide, by decide, by decide,
    fun s buff => RAM_disk_read_congr ilp32 s buff _ _ 1 o,
    fun s buff => RAM_disk_write_congr ilp32 s buff _ _ 1 o, ?_, ?_,
    fun s buff => RAM_disk_read_congr lp64 s buff _ _ 1 o32,
    fun s buff => RAM_disk_write_congr lp64 s buff _ _ 1 o32,
    fun s buff => RAM_disk_read_congr lp64_lba64 s buff _ _ 1 o64,
    fun s buff => RAM_disk_write_congr lp64_lba64 s buff _ _ 1 o64⟩
  · obtain ⟨out1, ho⟩ : ∃ r, memcpy (List.replicate 512 0xFF)
        0 (malloc_block 4096 (fun _ => 0)) 0 512 = some r :=
      ⟨_, memcpy_eq_some _ _ _ _ _ (by rw [List.length_replicate])
        (by rw [malloc_block_length]; decide)⟩
    refine ⟨out1, ?_, ?_⟩
    · rw [RAM_disk_read_congr ilp32 _ _ _ _ 1 o,
        RAM_disk_read_in_range ilp32 ram4096 _ _ 0 1 ram4096_buffer (by decide)
          (by rw [e0, ram4096_size]; decide), o0, x, ho]
      rfl
    · have hl := memcpy_length ho
      have hw := memcpy_window ho
      rw [List.drop_zero, List.drop_zero,
        List.take_of_length_le (by rw [hl, List.length_replicate]),
        malloc_block_const, List.take_replicate] at hw
      exact hw
  · obtain ⟨mem1, hm⟩ : ∃ r, memcpy (malloc_block 4096 (fun _ => 0)) 0 sectorAA 0 512 =
        some r :=
      ⟨_, memcpy_eq_some _ _ _ _ _ (by rw [malloc_block_length]; decide)
        (by rw [sectorAA_length])⟩
    refine ⟨{ ram4096 with ram_disk_buffer := some mem1 }, mem1, ?_, rfl, ?_⟩
    · rw [RAM_disk_write_congr ilp32 _ _ _ _ 1 o,
        RAM_disk_write_in_range ilp32 ram4096 _ _ 0 1 ram4096_buffer (by decide)
          (by rw [e0, ram4096_size]; decide), o0, x, hm]
      rfl
    · have hw := memcpy_window hm
      rw [List.drop_zero, List.drop_zero,
        List.take_of_length_le (l := sectorAA) (by rw [sectorAA_length])] at hw
      exact hw

/-! ## C5: write protection -/

/-- C5: after `RAM_set_write_protected(p)` with a non-zero `p`, in every store state and
for every buffer, sector and count, `disk_write(DEV_RAM, ...)` returns `RES_WRPRT` and the
state it leaves is the one it found; the stored bytes and the capacity are those from
before the flag was set. -/
theorem C5_write_protected_RAM_write (T : CTypes) (hw : HW) (s : State) (p : Int)
    (buf : List BYTE) (sector count : Nat) (hp : p ≠ 0) :
    disk_write T hw DEV_RAM (RAM_set_write_protected p s) buf sector count =
      some (RES_WRPRT, RAM_set_write_protected p s) ∧
    (RAM_set_write_protected p s).ram_disk_buffer = s.ram_disk_buffer ∧
    (RAM_set_write_protected p s).ram_disk_size = s.ram_disk_size := by
  refine ⟨?_, rfl, rfl⟩
  simp [disk_write, RAM_is_write_protected, RAM_set_write_protected, hp]

/-- C5 (witness): protecting the 4096-byte RAM disk with `p = -3` and writing sector 0. -/
theorem C5_write_protected_RAM_write_witness :
    disk_write ilp32 hw_idle DEV_RAM (RAM_set_write_protected (-3) ram4096) sectorAA 0 1 =
      some (RES_WRPRT, RAM_set_write_protected (-3) ram4096) ∧
    (RAM_set_write_protected (-3) ram4096).ram_disk_buffer = ram4096.ram_disk_buffer ∧
    (RAM_set_write_protected (-3) ram4096).ram_disk_size = ram4096.ram_disk_size :=
  C5_write_protected_RAM_write ilp32 hw_idle ram4096 (-3) sectorAA 0 1 (by decide)

/-! ## C6: unknown drive numbers -/

/-- C6 (counterexample): for the unknown drive number 3, `disk_status` returns
`STA_NOINIT` (1), which is not the parameter-error code `RES_PARERR` (4). -/
theorem C6_disk_status_unknown_drive_counterexample :
    (disk_status 3 initState).1 = STA_NOINIT ∧
    ((disk_status 3 initState).1 : Int) ≠ RES_PARERR := by
  decide

/-- C6 (amended): for every drive number other than 0 (RAM), 1 (MMC) and 2 (USB),
`disk_read`, `disk_write` and `disk_ioctl` return `RES_PARERR` and `disk_status` returns
`STA_NOINIT`, for every other argument and every state; the state and the caller's
buffers are left as they were. -/
theorem C6_unknown_drive (T : CTypes) (hw : HW) (pdrv : Nat) (s : State) (buff : List BYTE)
    (sector count cmd arg : Nat)
    (h : pdrv ≠ DEV_RAM ∧ pdrv ≠ DEV_MMC ∧ pdrv ≠ DEV_USB) :
    disk_status pdrv s = (STA_NOINIT, s) ∧
    disk_read T hw pdrv s buff sector count = some (RES_PARERR, s, buff) ∧
    disk_write T hw pdrv s buff sector count = some (RES_PARERR, s) ∧
    disk_ioctl pdrv cmd s arg = (RES_PARERR, s, arg) := by
  obtain ⟨h0, h1, h2⟩ := h
  refine ⟨?_, ?_, ?_, ?_⟩
  · simp only [disk_status, if_neg h0, if_neg h1, if_neg h2]
  · simp only [disk_read, if_neg h0, if_neg h1, if_neg h2]
  · simp only [disk_write, if_neg h0, if_neg h1, if_neg h2]
  · simp only [disk_ioctl, if_neg h0, if_neg h1, if_neg h2]

/-- C6 (witness): drive number 3 on the ready 4096-byte RAM disk. -/
theorem C6_unknown_drive_witness :
    disk_status 3 ram4096 = (STA_NOINIT, ram4096) ∧
    disk_read ilp32 hw_idle 3 ram4096 sectorAA 0 1 = some (RES_PARERR, ram4096, sectorAA) ∧
    disk_write ilp32 hw_idle 3 ram4096 sectorAA 0 1 = some (RES_PARERR, ram4096) ∧
    disk_ioctl 3 CTRL_SYNC ram4096 0 = (RES_PARERR, ram4096, 0) :=
  C6_unknown_drive ilp32 hw_idle 3 ram4096 sectorAA 0 1 CTRL_SYNC 0
    ⟨by decide, by decide, by decide⟩

/-! ## C7: reading from the RAM disk through the dispatcher -/

theorem RAM_disk_initialize_block (size : Nat) (alloc : Option (Nat → BYTE)) (s : State) :
    BlockMatchesSize ( RAM_disk_initialize size alloc s).2 := by
  intro mem h
  cases alloc with
  | none => exact Option.noConfusion h
  | some garbage =>
    have hm : malloc_block size garbage = mem := Option.some.inj h
    rw [← hm]
    exact malloc_block_length _ _

theorem ram4096_block : BlockMatchesSize ram4096 :=
  RAM_disk_initialize_block 4096 _ initState

/-- The bytes of the destination before the copied window are kept. -/
theorem memcpy_before {dst src r : List BYTE} {dOff sOff n : Nat}
    (h : memcpy dst dOff src sOff n = some r) : r.take dOff = dst.take dOff := by
  have hb := memcpy_bounds h
  rw [memcpy_result h]
  exact List.take_left' (by rw [List.length_take]; omega)

/-- The bytes of the destination after the copied window are kept. -/
theorem memcpy_after {dst src r : List BYTE} {dOff sOff n : Nat}
    (h : memcpy dst dOff src sOff n = some r) :
    r.drop (dOff + n) = dst.drop (dOff + n) := by
  have hb := memcpy_bounds h
  rw [memcpy_result h, ← List.append_assoc]
  exact List.drop_left' (by
    rw [List.length_append, List.length_take, List.length_take, List.length_drop]; omega)

theorem RES_ERROR_ne_RES_OK : RES_ERROR ≠ RES_OK := by decide

/-- What `disk_read` makes of the RAM disk's answer. -/
theorem disk_read_RAM (T : CTypes) (hw : HW) (s : State) (buff : List BYTE)
    (sector count : Nat) :
    disk_read T hw DEV_RAM s buff sector count =
      (RAM_disk_read T s buff sector count).map
        (fun r => if r.1 ≠ 0 then (RES_OK, s, r.2) else (RES_ERROR, s, r.2)) := by
  simp [disk_read]

/-- C7: for a request whose arithmetic does not overflow (byte offset representable in
`LBA_t`, length in `UINT`, their sum in `size_t`), on a state whose block has
`ram_disk_size` bytes and with an output buffer that has room for `count * 512` bytes:
if the store is ready (buffer allocated, capacity non-zero) and
`sector * 512 + count * 512 <= capacity`, `disk_read(DEV_RAM, ...)` returns `RES_OK` and
the first `count * 512` bytes of `out` are the stored bytes from byte offset
`sector * 512` (the rest of `out` is as before); in every other case it returns
`RES_ERROR` and `out` is untouched; `RES_OK` is returned exactly in the first case; the
device state is unchanged in both. -/
theorem C7_disk_read_RAM (T : CTypes) (hw : HW) (s : State) (out : List BYTE)
    (sector count : Nat) (hblock : BlockMatchesSize s)
    (h1 : sector * FF_MAX_SS < 2 ^ T.LBA_bits) (h2 : count * FF_MAX_SS < 2 ^ T.UINT_bits)
    (h3 : sector * FF_MAX_SS + count * FF_MAX_SS < 2 ^ T.size_bits)
    (hout : count * FF_MAX_SS ≤ out.length) :
    ((s.ram_disk_buffer ≠ none ∧ s.ram_disk_size ≠ 0) ∧
        sector * FF_MAX_SS + count * FF_MAX_SS ≤ s.ram_disk_size →
      ∃ mem out1, s.ram_disk_buffer = some mem ∧
        disk_read T hw DEV_RAM s out sector count = some (RES_OK, s, out1) ∧
        out1.take (count * FF_MAX_SS) =
          (mem.drop (sector * FF_MAX_SS)).take (count * FF_MAX_SS) ∧
        out1.drop (count * FF_MAX_SS) = out.drop (count * FF_MAX_SS) ∧
        out1.length = out.length) ∧
    (¬ ((s.ram_disk_buffer ≠ none ∧ s.ram_disk_size ≠ 0) ∧
        sector * FF_MAX_SS + count * FF_MAX_SS ≤ s.ram_disk_size) →
      disk_read T hw DEV_RAM s out sector count = some (RES_ERROR, s, out)) ∧
    ((∃ s1 out1, disk_read T hw DEV_RAM s out sector count = some (RES_OK, s1, out1)) ↔
      ((s.ram_disk_buffer ≠ none ∧ s.ram_disk_size ≠ 0) ∧
        sector * FF_MAX_SS + count * FF_MAX_SS ≤ s.ram_disk_size)) := by
  have hso := start_offset_exact T sector h1 (by omega)
  have hx := xfer_size_exact T count h2 (by omega)
  have he := end_offset_exact T sector count h1 h2 h3
  have hgood : (s.ram_disk_buffer ≠ none ∧ s.ram_disk_size ≠ 0) ∧
      sector * FF_MAX_SS + count * FF_MAX_SS ≤ s.ram_disk_size →
      ∃ mem out1, s.ram_disk_buffer = some mem ∧
        disk_read T hw DEV_RAM s out sector count = some (RES_OK, s, out1) ∧
        out1.take (count * FF_MAX_SS) =
          (mem.drop (sector * FF_MAX_SS)).take (count * FF_MAX_SS) ∧
        out1.drop (count * FF_MAX_SS) = out.drop (count * FF_MAX_SS) ∧
        out1.length = out.length := by
    rintro ⟨⟨hb, h0⟩, hr⟩
    obtain ⟨mem, hmem⟩ := Option.ne_none_iff_exists'.mp hb
    have hlen := hblock mem hmem
    obtain ⟨out1, ho⟩ : ∃ r, memcpy out 0 mem (sector * FF_MAX_SS) (count * FF_MAX_SS) =
        some r := ⟨_, memcpy_eq_some _ _ _ _ _ (by omega) (by omega)⟩
    have hw1 := memcpy_window ho
    have ha := memcpy_after ho
    rw [List.drop_zero] at hw1
    rw [Nat.zero_add] at ha
    refine ⟨mem, out1, hmem, ?_, hw1, ha, memcpy_length ho⟩
    rw [disk_read_RAM, RAM_disk_read_in_range T s out mem sector count hmem h0
      (by rw [he]; exact hr), hso, hx, ho]
    rfl
  have hbad : ¬ ((s.ram_disk_buffer ≠ none ∧ s.ram_disk_size ≠ 0) ∧
      sector * FF_MAX_SS + count * FF_MAX_SS ≤ s.ram_disk_size) →
      disk_read T hw DEV_RAM s out sector count = some (RES_ERROR, s, out) := by
    intro hn
    have hz : RAM_disk_read T s out sector count = some (0, out) := by
      by_cases hnr : s.ram_disk_buffer = none ∨ s.ram_disk_size = 0
      · exact RAM_disk_read_not_ready T s out sector count hnr
      · refine RAM_disk_read_out_of_range T s out sector count ?_
        rw [he]
        by_contra hc
        exact hn ⟨⟨fun hb => hnr (Or.inl hb), fun h0 => hnr (Or.inr h0)⟩, Nat.not_lt.mp hc⟩
    rw [disk_read_RAM, hz]
    rfl
  refine ⟨hgood, hbad, ⟨?_, ?_⟩⟩
  · rintro ⟨s1, out1, hres⟩
    by_contra hn
    rw [hbad hn] at hres
    have hcode := congrArg Prod.fst (Option.some.inj hres)
    exact absurd hcode RES_ERROR_ne_RES_OK
  · intro hg
    obtain ⟨mem, out1, _, hres, _⟩ := hgood hg
    exact ⟨s, out1, hres⟩

/-- C7 (witness): reading the last sector (sector 7) of the ready 4096-byte RAM disk with
32-bit integer types into a 512-byte buffer. -/
theorem C7_disk_read_RAM_witness :
    ((ram4096.ram_disk_buffer ≠ none ∧ ram4096.ram_disk_size ≠ 0) ∧
        7 * FF_MAX_SS + 1 * FF_MAX_SS ≤ ram4096.ram_disk_size →
      ∃ mem out1, ram4096.ram_disk_buffer = some mem ∧
        disk_read ilp32 hw_idle DEV_RAM ram4096 (List.replicate 512 0xFF) 7 1 =
          some (RES_OK, ram4096, out1) ∧
        out1.take (1 * FF_MAX_SS) = (mem.drop (7 * FF_MAX_SS)).take (1 * FF_MAX_SS) ∧
        out1.drop (1 * FF_MAX_SS) = (List.replicate 512 0xFF).drop (1 * FF_MAX_SS) ∧
        out1.length = (List.replicate 512 (0xFF : BYTE)).length) ∧
    (¬ ((ram4096.ram_disk_buffer ≠ none ∧ ram4096.ram_disk_size ≠ 0) ∧
        7 * FF_MAX_SS + 1 * FF_MAX_SS ≤ ram4096.ram_disk_size) →
      disk_read ilp32 hw_idle DEV_RAM ram4096 (List.replicate 512 0xFF) 7 1 =
        some (RES_ERROR, ram4096, List.replicate 512 0xFF)) ∧
    ((∃ s1 out1, disk_read ilp32 hw_idle DEV_RAM ram4096 (List.replicate 512 0xFF) 7 1 =
        some (RES_OK, s1, out1)) ↔
      ((ram4096.ram_disk_buffer ≠ none ∧ ram4096.ram_disk_size ≠ 0) ∧
        7 * FF_MAX_SS + 1 * FF_MAX_SS ≤ ram4096.ram_disk_size)) :=
  C7_disk_read_RAM ilp32 hw_idle ram4096 (List.replicate 512 0xFF) 7 1 ram4096_block
    (by decide) (by decide) (by decide) (by rw [List.length_replicate]; decide)

/-! ## The invariant is kept by every call -/

/-- A successful or failed `RAM_disk_write` either leaves the state alone or replaces
the block's bytes by the result of the `memcpy`. -/
theorem RAM_disk_write_effect {T : CTypes} {s : State} {buff : List BYTE}
    {sector count : Nat} {r : Int × State}
    (h : RAM_disk_write T s buff sector count = some r) :
    r.2 = s ∨ ∃ mem mem1, s.ram_disk_buffer = some mem ∧
      memcpy mem (start_offset T sector) buff 0 (xfer_size T count) = some mem1 ∧
      r.2 = { s with ram_disk_buffer := some mem1 } := by
  by_cases hnr : s.ram_disk_buffer = none ∨ s.ram_disk_size = 0
  · rw [RAM_disk_write_not_ready T s buff sector count hnr] at h
    exact Or.inl (congrArg Prod.snd (Option.some.inj h)).symm
  · have hb : s.ram_disk_buffer ≠ none := fun hb => hnr (Or.inl hb)
    have h0 : s.ram_disk_size ≠ 0 := fun h0 => hnr (Or.inr h0)
    obtain ⟨mem, hmem⟩ := Option.ne_none_iff_exists'.mp hb
    by_cases hr : s.ram_disk_size < end_offset T sector count
    · rw [RAM_disk_write_out_of_range T s buff mem sector count hmem h0 hr] at h
      exact Or.inl (congrArg Prod.snd (Option.some.inj h)).symm
    · rw [RAM_disk_write_in_range T s buff mem sector count hmem h0 (Nat.not_lt.mp hr)] at h
      cases hm : memcpy mem (start_offset T sector) buff 0 (xfer_size T count) with
      | none => rw [hm] at h; exact Option.noConfusion h
      | some mem1 =>
        rw [hm] at h
        exact Or.inr ⟨mem, mem1, hmem, hm, (congrArg Prod.snd (Option.some.inj h)).symm⟩

theorem RamInv_of_same_ram {s s1 : State} (hi : RamInv s)
    (h1 : s1.ram_disk_status = s.ram_disk_status)
    (h2 : s1.ram_disk_buffer = s.ram_disk_buffer)
    (h3 : s1.ram_disk_size = s.ram_disk_size) : RamInv s1 := by
  unfold RamInv BlockMatchesSize StatusLatchedOnlyNotReady at *
  rw [h1, h2, h3]
  exact hi

theorem RamInv_init_call (size : Nat) (alloc : Option (Nat → BYTE)) (s : State) :
    RamInv ( RAM_disk_initialize size alloc s).2 := by
  refine ⟨RAM_disk_initialize_block size alloc s, ?_⟩
  cases alloc with
  | none => exact fun _ => Or.inl rfl
  | some garbage => exact fun h => absurd rfl h

theorem RamInv_RAM_disk_status (s : State) (hi : RamInv s) :
    RamInv (RAM_disk_status s).2 := by
  unfold RAM_disk_status
  by_cases h : s.ram_disk_status ≠ 0
  · rw [if_pos h]; exact hi
  · rw [if_neg h]
    by_cases h2 : s.ram_disk_buffer.isNone ∨ s.ram_disk_size = 0
    · rw [if_pos h2]
      refine ⟨hi.1, fun _ => ?_⟩
      rcases h2 with h2 | h2
      · exact Or.inl (Option.isNone_iff_eq_none.mp h2)
      · exact Or.inr h2
    · rw [if_neg h2]; exact hi

theorem RamInv_RAM_disk_write {T : CTypes} {s : State} {buff : List BYTE}
    {sector count : Nat} {r : Int × State} (hi : RamInv s)
    (h : RAM_disk_write T s buff sector count = some r) : RamInv r.2 := by
  rcases RAM_disk_write_effect h with he | ⟨mem, mem1, hmem, hm, he⟩
  · rw [he]; exact hi
  · rw [he]
    refine ⟨?_, ?_⟩
    · intro m hm1
      have e : mem1 = m := Option.some.inj hm1
      rw [← e, memcpy_length hm]
      exact hi.1 mem hmem
    · intro hs
      rcases hi.2 hs with hn | hz
      · rw [hmem] at hn; exact Option.noConfusion hn
      · exact Or.inr hz

theorem RamInv_disk_status (pdrv : Nat) (s : State) (hi : RamInv s) :
    RamInv (disk_status pdrv s).2 := by
  unfold disk_status
  by_cases h0 : pdrv = DEV_RAM
  · rw [if_pos h0]
    have := RamInv_RAM_disk_status s hi
    by_cases hr : (RAM_disk_status s).1 ≠ 0
    · rw [if_pos hr]; exact this
    · rw [if_neg hr]; exact this
  · rw [if_neg h0]
    by_cases h1 : pdrv = DEV_MMC
    · rw [if_pos h1]
      exact RamInv_of_same_ram hi rfl rfl rfl
    · rw [if_neg h1]
      by_cases h2 : pdrv = DEV_USB
      · rw [if_pos h2]
        exact RamInv_of_same_ram hi rfl rfl rfl
      · rw [if_neg h2]; exact hi

theorem RamInv_disk_write {T : CTypes} {hw : HW} {pdrv : Nat} {s : State} {buff : List BYTE}
    {sector count : Nat} {r : DRESULT × State} (hi : RamInv s)
    (h : disk_write T hw pdrv s buff sector count = some r) : RamInv r.2 := by
  unfold disk_write at h
  by_cases h0 : pdrv = DEV_RAM
  · rw [if_pos h0] at h
    by_cases hp : RAM_is_write_protected s ≠ 0
    · rw [if_pos hp] at h
      rw [← Option.some.inj h]; exact hi
    · rw [if_neg hp] at h
      cases hw1 : RAM_disk_write T s buff sector count with
      | none => rw [hw1] at h; exact Option.noConfusion h
      | some r1 =>
        rw [hw1] at h
        have hi1 := RamInv_RAM_disk_write hi hw1
        have e := Option.some.inj h
        rw [← e]
        dsimp only
        by_cases hc : r1.1 ≠ 0
        · rw [if_pos hc]; exact hi1
        · rw [if_neg hc]; exact hi1
  · rw [if_neg h0] at h
    by_cases h1 : pdrv = DEV_MMC
    · rw [if_pos h1] at h
      by_cases hp : MMC_is_write_protected ≠ 0
      · rw [if_pos hp] at h
        rw [← Option.some.inj h]; exact hi
      · rw [if_neg hp] at h
        by_cases hc : MMC_disk_write hw buff sector count ≠ 0
        · rw [if_pos hc] at h
          rw [← Option.some.inj h]; exact hi
        · rw [if_neg hc] at h
          rw [← Option.some.inj h]; exact hi
    · rw [if_neg h1] at h
      by_cases h2 : pdrv = DEV_USB
      · rw [if_pos h2] at h
        by_cases hp : USB_is_write_protected s ≠ 0
        · rw [if_pos hp] at h
          rw [← Option.some.inj h]; exact hi
        · rw [if_neg hp] at h
          by_cases hc : USB_disk_write hw s buff sector count ≠ 0
          · rw [if_pos hc] at h
            rw [← Option.some.inj h]; exact hi
          · rw [if_neg hc] at h
            rw [← Option.some.inj h]; exact hi
      · rw [if_neg h2] at h
        rw [← Option.some.inj h]; exact hi

/-- The entry point `disk_read` never changes the state. -/
theorem disk_read_state {T : CTypes} {hw : HW} {pdrv : Nat} {s : State} {buff : List BYTE}
    {sector count : Nat} {r : DRESULT × State × List BYTE}
    (h : disk_read T hw pdrv s buff sector count = some r) : r.2.1 = s := by
  unfold disk_read at h
  by_cases h0 : pdrv = DEV_RAM
  · rw [if_pos h0] at h
    cases hr : RAM_disk_read T s buff sector count with
    | none => rw [hr] at h; exact Option.noConfusion h
    | some r1 =>
      rw [hr] at h
      rw [← Option.some.inj h]
      dsimp only
      by_cases hc : r1.1 ≠ 0
      · rw [if_pos hc]
      · rw [if_neg hc]
  · rw [if_neg h0] at h
    by_cases h1 : pdrv = DEV_MMC
    · rw [if_pos h1] at h
      rw [← Option.some.inj h]
      by_cases hc : (MMC_disk_read hw buff sector count).1 ≠ 0
      · rw [if_pos hc]
      · rw [if_neg hc]
    · rw [if_neg h1] at h
      by_cases h2 : pdrv = DEV_USB
      · rw [if_pos h2] at h
        rw [← Option.some.inj h]
        by_cases hc : (USB_disk_read hw buff sector count).1 ≠ 0
        · rw [if_pos hc]
        · rw [if_neg hc]
      · rw [if_neg h2] at h
        rw [← Option.some.inj h]

/-- The entry point `disk_ioctl` never changes the state. -/
theorem disk_ioctl_state (pdrv cmd : Nat) (s : State) (buff : Nat) :
    (disk_ioctl pdrv cmd s buff).2.1 = s := by
  unfold disk_ioctl
  split
  · split <;> rfl
  · split
    · split <;> rfl
    · split
      · split <;> rfl
      · rfl

/-- Every call keeps the invariant of the RAM disk variables. -/
theorem RamInv_step {T : CTypes} {op : Op} {s s1 : State} (hi : RamInv s)
    (h : step T op s = some s1) : RamInv s1 := by
  cases op with
  | ram_init size alloc =>
    rw [← Option.some.inj h]; exact RamInv_init_call size alloc s
  | ram_status =>
    rw [← Option.some.inj h]; exact RamInv_RAM_disk_status s hi
  | ram_read buff sector count =>
    simp only [step] at h
    cases hr : RAM_disk_read T s buff sector count with
    | none => rw [hr] at h; exact Option.noConfusion h
    | some r => rw [hr] at h; rw [← Option.some.inj h]; exact hi
  | ram_write buff sector count =>
    simp only [step] at h
    cases hr : RAM_disk_write T s buff sector count with
    | none => rw [hr] at h; exact Option.noConfusion h
    | some r => rw [hr] at h; rw [← Option.some.inj h]; exact RamInv_RAM_disk_write hi hr
  | ram_set_write_protected prot =>
    rw [← Option.some.inj h]; exact RamInv_of_same_ram hi rfl rfl rfl
  | status pdrv =>
    rw [← Option.some.inj h]; exact RamInv_disk_status pdrv s hi
  | read hw pdrv buff sector count =>
    simp only [step] at h
    cases hr : disk_read T hw pdrv s buff sector count with
    | none => rw [hr] at h; exact Option.noConfusion h
    | some r =>
      rw [hr] at h
      rw [← Option.some.inj h]
      show RamInv r.2.1
      rw [disk_read_state hr]; exact hi
  | write hw pdrv buff sector count =>
    simp only [step] at h
    cases hr : disk_write T hw pdrv s buff sector count with
    | none => rw [hr] at h; exact Option.noConfusion h
    | some r => rw [hr] at h; rw [← Option.some.inj h]; exact RamInv_disk_write hi hr
  | ioctl pdrv cmd buff =>
    rw [← Option.some.inj h]
    show RamInv (disk_ioctl pdrv cmd s buff).2.1
    rw [disk_ioctl_state]; exact hi

theorem RamInv_run {T : CTypes} (ops : List Op) {s s1 : State} (hi : RamInv s)
    (h : run T ops s = some s1) : RamInv s1 := by
  induction ops generalizing s with
  | nil => rw [← Option.some.inj h]; exact hi
  | cons op ops ih =>
    simp only [run] at h
    cases hs : step T op s with
    | none => rw [hs] at h; exact Option.noConfusion h
    | some s2 =>
      rw [hs] at h
      exact ih (RamInv_step hi hs) h

theorem RamInv_initState : RamInv initState :=
  ⟨fun _ h => Option.noConfusion h, fun _ => Or.inl rfl⟩

theorem RamInv_of_Reachable {T : CTypes} {s : State} (h : Reachable T s) : RamInv s := by
  obtain ⟨ops, hops⟩ := h
  exact RamInv_run ops RamInv_initState hops

/-! ## C8: the status of the RAM disk -/

/-- C8: in every state reachable from the initial state by calls of
`RAM_disk_initialize` (whether `malloc` succeeds or fails), `RAM_disk_status`,
`RAM_disk_read`, `RAM_disk_write`, `RAM_set_write_protected` and the four `disk_*` entry
points, `RAM_disk_status()` returns 0 if and only if the buffer is allocated and
`ram_disk_size` is non-zero; and the latched byte `ram_disk_status` is 0 whenever the
store is allocated with non-zero capacity. -/
theorem C8_RAM_disk_status_ready_iff (T : CTypes) (s : State) (h : Reachable T s) :
    ((RAM_disk_status s).1 = 0 ↔ (s.ram_disk_buffer ≠ none ∧ s.ram_disk_size ≠ 0)) ∧
    (s.ram_disk_buffer ≠ none ∧ s.ram_disk_size ≠ 0 → s.ram_disk_status = 0) := by
  have hl := (RamInv_of_Reachable h).2
  have hlatch : s.ram_disk_buffer ≠ none ∧ s.ram_disk_size ≠ 0 → s.ram_disk_status = 0 := by
    rintro ⟨hb, h0⟩
    by_contra hs
    rcases hl hs with hn | hz
    · exact hb hn
    · exact h0 hz
  refine ⟨⟨?_, ?_⟩, hlatch⟩
  · intro hret
    unfold RAM_disk_status at hret
    by_cases hs : s.ram_disk_status ≠ 0
    · rw [if_pos hs] at hret
      exact absurd (Int.ofNat_eq_zero.mp hret) hs
    · rw [if_neg hs] at hret
      by_cases h2 : s.ram_disk_buffer.isNone ∨ s.ram_disk_size = 0
      · rw [if_pos h2] at hret
        have h20 : (2 : Int) = 0 := hret
        exact absurd h20 (by decide)
      · exact ⟨fun hb => h2 (Or.inl (Option.isNone_iff_eq_none.mpr hb)),
          fun h0 => h2 (Or.inr h0)⟩
  · intro hready
    have hs := hlatch hready
    unfold RAM_disk_status
    rw [if_neg (not_not.mpr hs)]
    have h2 : ¬ (s.ram_disk_buffer.isNone ∨ s.ram_disk_size = 0) := by
      rintro (hb | h0)
      · exact hready.1 (Option.isNone_iff_eq_none.mp hb)
      · exact hready.2 h0
    rw [if_neg h2]

/-- C8 (witness): the ready 4096-byte RAM disk, reached by a failed
`RAM_disk_initialize(4096)`, a status query (which returns the latched error) and a
successful `RAM_disk_initialize(4096)`. -/
theorem C8_RAM_disk_status_ready_iff_witness :
    Reachable ilp32 ram4096 ∧
    ((RAM_disk_status ram4096).1 = 0 ↔
      (ram4096.ram_disk_buffer ≠ none ∧ ram4096.ram_disk_size ≠ 0)) ∧
    (ram4096.ram_disk_buffer ≠ none ∧ ram4096.ram_disk_size ≠ 0 →
      ram4096.ram_disk_status = 0) :=
  have hreach : Reachable ilp32 ram4096 :=
    ⟨[Op.ram_init 4096 none, Op.status DEV_RAM,
      Op.ram_init 4096 (some (fun _ => 0))], rfl⟩
  ⟨hreach, C8_RAM_disk_status_ready_iff ilp32 ram4096 hreach⟩

/-! ## C9 and C10: the two outcomes of `RAM_disk_initialize` -/

/-- C9: for every capacity greater than 0 and every prior state, when the allocation in
`RAM_disk_initialize(capacity)` succeeds the call returns 0, `ram_disk_size` equals the
capacity, and a following `RAM_disk_status()` returns 0 (changing nothing) and
`disk_status(DEV_RAM)` returns 0, whether asked before or after that status query. -/
theorem C9_initialize_success_ready (capacity : Nat) (garbage : Nat → BYTE) (s : State)
    (h : 0 < capacity) :
    ( RAM_disk_initialize capacity (some garbage) s).1 = 0 ∧
    ( RAM_disk_initialize capacity (some garbage) s).2.ram_disk_size = capacity ∧
    RAM_disk_status ( RAM_disk_initialize capacity (some garbage) s).2 =
      (0, ( RAM_disk_initialize capacity (some garbage) s).2) ∧
    disk_status DEV_RAM ( RAM_disk_initialize capacity (some garbage) s).2 =
      (0, ( RAM_disk_initialize capacity (some garbage) s).2) ∧
    (disk_status DEV_RAM
      (RAM_disk_status ( RAM_disk_initialize capacity (some garbage) s).2).2).1 = 0 := by
  have hc : capacity ≠ 0 := Nat.pos_iff_ne_zero.mp h
  have hst : RAM_disk_status ( RAM_disk_initialize capacity (some garbage) s).2 =
      (0, ( RAM_disk_initialize capacity (some garbage) s).2) := by
    simp [RAM_disk_status, RAM_disk_initialize, hc]
  have hds : disk_status DEV_RAM ( RAM_disk_initialize capacity (some garbage) s).2 =
      (0, ( RAM_disk_initialize capacity (some garbage) s).2) := by
    unfold disk_status
    rw [if_pos rfl, hst]
    rfl
  refine ⟨rfl, rfl, hst, hds, ?_⟩
  rw [hst, hds]

/-- C9 (witness): `RAM_disk_initialize(4096)` after a failed initialisation has latched
the error status 1. -/
theorem C9_initialize_success_ready_witness :
    ( RAM_disk_initialize 4096 (some (fun _ => 0))
      ( RAM_disk_initialize 4096 none initState).2).1 = 0 ∧
    ( RAM_disk_initialize 4096 (some (fun _ => 0))
      ( RAM_disk_initialize 4096 none initState).2).2.ram_disk_size = 4096 ∧
    RAM_disk_status ( RAM_disk_initialize 4096 (some (fun _ => 0))
        ( RAM_disk_initialize 4096 none initState).2).2 =
      (0, ( RAM_disk_initialize 4096 (some (fun _ => 0))
        ( RAM_disk_initialize 4096 none initState).2).2) ∧
    disk_status DEV_RAM ( RAM_disk_initialize 4096 (some (fun _ => 0))
        ( RAM_disk_initialize 4096 none initState).2).2 =
      (0, ( RAM_disk_initialize 4096 (some (fun _ => 0))
        ( RAM_disk_initialize 4096 none initState).2).2) ∧
    (disk_status DEV_RAM
      (RAM_disk_status ( RAM_disk_initialize 4096 (some (fun _ => 0))
        ( RAM_disk_initialize 4096 none initState).2).2).2).1 = 0 :=
  C9_initialize_success_ready 4096 (fun _ => 0) ( RAM_disk_initialize 4096 none initState).2
    (by decide)

/-- C10: when the allocation inside `RAM_disk_initialize(size)` fails, for every size and
every prior state (a ready store included), the call returns the non-zero value 1 and
leaves the store not ready: afterwards `RAM_disk_status()` returns the non-zero value 1,
`disk_status(DEV_RAM)` is `STA_NOINIT`, every `RAM_disk_read` returns 0 with the caller's
buffer untouched and every `RAM_disk_write` returns `RES_NOTRDY`; none of these calls
changes the state, so the answers are the same in whatever order they are made. -/
theorem C10_initialize_failure_not_ready (size : Nat) (s : State) :
    ( RAM_disk_initialize size none s).1 = 1 ∧
    ( RAM_disk_initialize size none s).1 ≠ 0 ∧
    RAM_disk_status ( RAM_disk_initialize size none s).2 =
      (1, ( RAM_disk_initialize size none s).2) ∧
    (RAM_disk_status ( RAM_disk_initialize size none s).2).1 ≠ 0 ∧
    disk_status DEV_RAM ( RAM_disk_initialize size none s).2 =
      (STA_NOINIT, ( RAM_disk_initialize size none s).2) ∧
    (∀ T buff sector count,
      RAM_disk_read T ( RAM_disk_initialize size none s).2 buff sector count =
        some (0, buff)) ∧
    (∀ T buff sector count,
      RAM_disk_write T ( RAM_disk_initialize size none s).2 buff sector count =
        some (RES_NOTRDY, ( RAM_disk_initialize size none s).2)) := by
  have hst : RAM_disk_status ( RAM_disk_initialize size none s).2 =
      (1, ( RAM_disk_initialize size none s).2) := by
    simp [RAM_disk_status, RAM_disk_initialize]
  have h10 : (1 : Int) ≠ 0 := by decide
  refine ⟨rfl, h10, hst, by rw [hst]; exact h10, ?_, ?_, ?_⟩
  · unfold disk_status
    rw [if_pos rfl, hst]
    rfl
  · intro T buff sector count
    exact RAM_disk_read_not_ready T _ buff sector count (Or.inl rfl)
  · intro T buff sector count
    exact RAM_disk_write_not_ready T _ buff sector count (Or.inl rfl)

/-! ## C11: the control entry point -/

/-- C11: `disk_ioctl(pdrv, cmd, buff)` returns `RES_OK` exactly for the pairs
`(DEV_RAM, CTRL_SYNC)`, `(DEV_MMC, GET_SECTOR_SIZE)` and `(DEV_USB, CTRL_POWER)` and
`RES_PARERR` for every other pair; for `(DEV_MMC, GET_SECTOR_SIZE)` the out-parameter
becomes 512 and in every other case it keeps its value; the device state is never
changed. -/
theorem C11_disk_ioctl (pdrv cmd : Nat) (s : State) (arg : Nat) :
    disk_ioctl pdrv cmd s arg =
      (if (pdrv = DEV_RAM ∧ cmd = CTRL_SYNC) ∨ (pdrv = DEV_MMC ∧ cmd = GET_SECTOR_SIZE) ∨
          (pdrv = DEV_USB ∧ cmd = CTRL_POWER) then RES_OK else RES_PARERR,
        s,
        if pdrv = DEV_MMC ∧ cmd = GET_SECTOR_SIZE then 512 else arg) ∧
    ((disk_ioctl pdrv cmd s arg).1 = RES_OK ↔
      (pdrv = DEV_RAM ∧ cmd = CTRL_SYNC) ∨ (pdrv = DEV_MMC ∧ cmd = GET_SECTOR_SIZE) ∨
        (pdrv = DEV_USB ∧ cmd = CTRL_POWER)) := by
  have hne01 : DEV_RAM ≠ DEV_MMC := by decide
  have hne02 : DEV_RAM ≠ DEV_USB := by decide
  have hne12 : DEV_MMC ≠ DEV_USB := by decide
  have hpe : RES_PARERR ≠ RES_OK := by decide
  have hmain : disk_ioctl pdrv cmd s arg =
      (if (pdrv = DEV_RAM ∧ cmd = CTRL_SYNC) ∨ (pdrv = DEV_MMC ∧ cmd = GET_SECTOR_SIZE) ∨
          (pdrv = DEV_USB ∧ cmd = CTRL_POWER) then RES_OK else RES_PARERR,
        s,
        if pdrv = DEV_MMC ∧ cmd = GET_SECTOR_SIZE then 512 else arg) := by
    unfold disk_ioctl
    by_cases h0 : pdrv = DEV_RAM
    · subst h0
      by_cases hc : cmd = CTRL_SYNC
      · simp [hc, hne01]
      · simp [hc, hne01, hne02]
    · by_cases h1 : pdrv = DEV_MMC
      · subst h1
        by_cases hc : cmd = GET_SECTOR_SIZE
        · simp [hc, hne01.symm]
        · simp [hc, hne01.symm, hne12]
      · by_cases h2 : pdrv = DEV_USB
        · subst h2
          by_cases hc : cmd = CTRL_POWER
          · simp [hc, hne02.symm, hne12.symm]
          · simp [hc, hne02.symm, hne12.symm]
        · simp [h0, h1, h2]
  refine ⟨hmain, ?_⟩
  rw [hmain]
  by_cases hp : (pdrv = DEV_RAM ∧ cmd = CTRL_SYNC) ∨ (pdrv = DEV_MMC ∧ cmd = GET_SECTOR_SIZE) ∨
      (pdrv = DEV_USB ∧ cmd = CTRL_POWER)
  · rw [if_pos hp]
    exact ⟨fun _ => hp, fun _ => rfl⟩
  · rw [if_neg hp]
    exact ⟨fun h => absurd h hpe, fun h => absurd h hp⟩

/-! ## C13 and C14: the write-protect flag -/

/-- C13: reads do not depend on write-protect.  For two states that differ only in the
write-protect flag (`s` and `s` with the flag replaced by `w`) and every buffer, sector and
count, `RAM_disk_read` gives the same result (code and output bytes, or the same undefined
behaviour), and `disk_read(DEV_RAM, ...)` returns the same result code and the same output
bytes. -/
theorem C13_read_independent_of_write_protect (T : CTypes) (hw : HW) (s : State) (w : Nat)
    (buff : List BYTE) (sector count : Nat) :
    RAM_disk_read T { s with ram_write_protected := w } buff sector count =
      RAM_disk_read T s buff sector count ∧
    (disk_read T hw DEV_RAM { s with ram_write_protected := w } buff sector count).map
        (fun r => (r.1, r.2.2)) =
      (disk_read T hw DEV_RAM s buff sector count).map (fun r => (r.1, r.2.2)) := by
  have h : RAM_disk_read T { s with ram_write_protected := w } buff sector count =
      RAM_disk_read T s buff sector count := rfl
  refine ⟨h, ?_⟩
  rw [disk_read_RAM, disk_read_RAM, h]
  cases RAM_disk_read T s buff sector count with
  | none => rfl
  | some r =>
    simp only [Option.map_some']
    by_cases hc : r.1 ≠ 0
    · rw [if_pos hc, if_pos hc]
    · rw [if_neg hc, if_neg hc]

/-- C14: `RAM_set_write_protected(p)` changes only the write-protect flag.  For every `p`
and every state, afterwards `RAM_is_write_protected()` returns 1 if `p` is non-zero and 0
if `p` is zero, and the stored bytes, the capacity, the RAM status byte and the MMC and
USB variables are as before. -/
theorem C14_set_write_protected_frame (p : Int) (s : State) :
    RAM_is_write_protected (RAM_set_write_protected p s) = (if p ≠ 0 then 1 else 0) ∧
    (RAM_set_write_protected p s).ram_disk_buffer = s.ram_disk_buffer ∧
    (RAM_set_write_protected p s).ram_disk_size = s.ram_disk_size ∧
    (RAM_set_write_protected p s).ram_disk_status = s.ram_disk_status ∧
    mmc_part (RAM_set_write_protected p s) = mmc_part s ∧
    usb_part (RAM_set_write_protected p s) = usb_part s := by
  refine ⟨?_, rfl, rfl, rfl, rfl, rfl⟩
  unfold RAM_is_write_protected RAM_set_write_protected
  by_cases hp : p ≠ 0
  · simp only [if_pos hp]; rfl
  · simp only [if_neg hp]; rfl

/-! ## C12: where write protection is enforced -/

/-- The result of a `memcpy` that fills the whole destination. -/
theorem memcpy_whole {dst src r : List BYTE} {sOff : Nat}
    (h : memcpy dst 0 src sOff dst.length = some r) :
    r = (src.drop sOff).take dst.length := by
  have hw := memcpy_window h
  have hl := memcpy_length h
  rw [List.drop_zero, List.take_of_length_le (by rw [hl])] at hw
  exact hw

theorem sectorAA_ne_zeros : sectorAA ≠ List.replicate 512 0 := by
  intro h
  have h1 : (0xAA : BYTE) = 0 := (List.replicate_right_inj (by decide)).mp h
  exact absurd h1 (by decide)

/-- What `disk_read` returns for the MMC drive, in terms of the primitive's answer. -/
theorem disk_read_MMC (T : CTypes) (hw : HW) (s : State) (buff : List BYTE)
    (sector count : Nat) :
    disk_read T hw DEV_MMC s buff sector count =
      some (if (hw.mmc_read_sectors sector count buff).1 ≠ 0 then RES_ERROR else RES_OK, s,
        (hw.mmc_read_sectors sector count buff).2) := by
  have h10 : DEV_MMC ≠ DEV_RAM := by decide
  unfold disk_read MMC_disk_read
  rw [if_neg h10, if_pos rfl, if_neg (by decide : ¬ MMC_is_initialized = 0),
    if_neg (by decide : ¬ MMC_is_present = 0)]
  by_cases hc : (hw.mmc_read_sectors sector count buff).1 ≠ 0
  · simp only [if_pos hc]
    rfl
  · simp only [if_neg hc]
    rfl

/-- What `disk_read` returns for the USB drive, in terms of the primitive's answer. -/
theorem disk_read_USB (T : CTypes) (hw : HW) (s : State) (buff : List BYTE)
    (sector count : Nat) :
    disk_read T hw DEV_USB s buff sector count =
      some (if (hw.usb_read_sectors sector count buff).1 ≠ 0 then RES_ERROR else RES_OK, s,
        (hw.usb_read_sectors sector count buff).2) := by
  have h20 : DEV_USB ≠ DEV_RAM := by decide
  have h21 : DEV_USB ≠ DEV_MMC := by decide
  unfold disk_read USB_disk_read
  rw [if_neg h20, if_neg h21, if_pos rfl, if_neg (by decide : ¬ USB_is_initialized = 0),
    if_neg (by decide : ¬ USB_is_connected = 0)]
  by_cases hc : (hw.usb_read_sectors sector count buff).1 ≠ 0
  · simp only [if_pos hc]
    rfl
  · simp only [if_neg hc]
    rfl

/-- What `disk_write` returns for the MMC drive, in terms of the primitive's answer: the
code returned by `MMC_disk_write` is tested as a condition. -/
theorem disk_write_MMC (T : CTypes) (hw : HW) (s : State) (buff : List BYTE)
    (sector count : Nat) :
    disk_write T hw DEV_MMC s buff sector count =
      some (if hw.mmc_write_sectors sector count buff ≠ 0 then RES_OK else RES_ERROR, s) := by
  have h10 : DEV_MMC ≠ DEV_RAM := by decide
  unfold disk_write MMC_disk_write
  rw [if_neg h10, if_pos rfl, if_neg (by decide : ¬ MMC_is_write_protected ≠ 0),
    if_neg (by decide : ¬ MMC_is_initialized = 0), if_neg (by decide : ¬ MMC_is_present = 0),
    if_neg (by decide : ¬ MMC_is_write_protected ≠ 0)]
  by_cases hc : hw.mmc_write_sectors sector count buff ≠ 0
  · rw [if_pos hc, if_pos hc, if_pos (by decide : RES_ERROR ≠ 0)]
  · rw [if_neg hc, if_neg hc, if_neg (by decide : ¬ RES_OK ≠ 0)]

/-- What `disk_write` returns for the USB drive while its write-protect flag is clear. -/
theorem disk_write_USB (T : CTypes) (hw : HW) (s : State) (buff : List BYTE)
    (sector count : Nat) (hwp : s.usb_write_protected = 0) :
    disk_write T hw DEV_USB s buff sector count =
      some (if hw.usb_write_sectors sector count buff ≠ 0 then RES_OK else RES_ERROR, s) := by
  have h20 : DEV_USB ≠ DEV_RAM := by decide
  have h21 : DEV_USB ≠ DEV_MMC := by decide
  have hp : ¬ USB_is_write_protected s ≠ 0 := by
    unfold USB_is_write_protected
    rw [hwp]
    decide
  unfold disk_write USB_disk_write
  rw [if_neg h20, if_neg h21, if_pos rfl, if_neg hp,
    if_neg (by decide : ¬ USB_is_initialized = 0), if_neg (by decide : ¬ USB_is_connected = 0),
    if_neg hp]
  by_cases hc : hw.usb_write_sectors sector count buff ≠ 0
  · rw [if_pos hc, if_pos hc, if_pos (by decide : RES_ERROR ≠ 0)]
  · rw [if_neg hc, if_neg hc, if_neg (by decide : ¬ RES_OK ≠ 0)]

/-- C15 (evaluation at the failing input): with the probes at their stubbed values,
`disk_read` on `DEV_MMC` and `DEV_USB` returns `RES_OK` when the read primitive returns 0
and `RES_ERROR` when it returns non-zero, but `disk_write` does the opposite: when
`mmc_write_sectors` / `usb_write_sectors` returns 0 (success) it returns `RES_ERROR`, and
when the primitive returns the non-zero value 1 it returns `RES_OK`.  In general
`disk_write` returns `RES_OK` exactly when the write primitive returns non-zero. -/
theorem C15_disk_write_MMC_USB_reports_inverted :
    hw_idle.mmc_write_sectors 0 1 sectorAA = 0 ∧
    disk_write ilp32 hw_idle DEV_MMC initState sectorAA 0 1 = some (RES_ERROR, initState) ∧
    hw_failing.mmc_write_sectors 0 1 sectorAA = 1 ∧
    disk_write ilp32 hw_failing DEV_MMC initState sectorAA 0 1 = some (RES_OK, initState) ∧
    hw_idle.usb_write_sectors 0 1 sectorAA = 0 ∧
    disk_write ilp32 hw_idle DEV_USB initState sectorAA 0 1 = some (RES_ERROR, initState) ∧
    hw_failing.usb_write_sectors 0 1 sectorAA = 1 ∧
    disk_write ilp32 hw_failing DEV_USB initState sectorAA 0 1 = some (RES_OK, initState) ∧
    (∀ T hw s buff sector count, disk_write T hw DEV_MMC s buff sector count =
      some (if hw.mmc_write_sectors sector count buff ≠ 0 then RES_OK else RES_ERROR, s)) ∧
    (∀ T hw (s : State) buff sector count,
      disk_write T hw DEV_USB { s with usb_write_protected := 0 } buff sector count =
        some (if hw.usb_write_sectors sector count buff ≠ 0 then RES_OK else RES_ERROR,
          { s with usb_write_protected := 0 })) ∧
    (∀ T hw s buff sector count, disk_read T hw DEV_MMC s buff sector count =
      some (if (hw.mmc_read_sectors sector count buff).1 ≠ 0 then RES_ERROR else RES_OK, s,
        (hw.mmc_read_sectors sector count buff).2)) ∧
    (∀ T hw s buff sector count, disk_read T hw DEV_USB s buff sector count =
      some (if (hw.usb_read_sectors sector count buff).1 ≠ 0 then RES_ERROR else RES_OK, s,
        (hw.usb_read_sectors sector count buff).2)) := by
  refine ⟨rfl, ?_, rfl, ?_, rfl, ?_, rfl, ?_, disk_write_MMC,
    fun T hw s buff sector count => disk_write_USB T hw _ buff sector count rfl,
    disk_read_MMC, disk_read_USB⟩
  · rw [disk_write_MMC]; rfl
  · rw [disk_write_MMC]; rfl
  · rw [disk_write_USB _ _ _ _ _ _ rfl]; rfl
  · rw [disk_write_USB _ _ _ _ _ _ rfl]; rfl

/-! ## C16: the status functions of MMC and USB -/

/-- C16: with the probe results as arbitrary inputs, `MMC_disk_status` returns 1 if the
card is not present, else 2 if it is not initialized, else 3 if the communication check is
non-zero, else 0, and `USB_disk_status` returns 1 if the device is not connected, else 2 if
it is not initialized, else 3 if it is not ready, else 4 if the communication check is
non-zero, else 0.  The source functions are these bodies at the hardcoded probe values
(1, 1, 0, 0 and 1, 1, 1, 0), and with them `disk_status(DEV_MMC)` and
`disk_status(DEV_USB)` return 0 in every state. -/
theorem C16_status_priority (present initialized wprot comm connected ready : Int)
    (s : State) :
    (MMC_disk_status_of present initialized wprot comm s).1 =
      (if present = 0 then 1 else if initialized = 0 then 2 else if comm ≠ 0 then 3 else 0) ∧
    (USB_disk_status_of connected initialized ready comm s).1 =
      (if connected = 0 then 1 else if initialized = 0 then 2 else if ready = 0 then 3
        else if comm ≠ 0 then 4 else 0) ∧
    MMC_disk_status s = MMC_disk_status_of 1 1 0 0 s ∧
    USB_disk_status s = USB_disk_status_of 1 1 1 0 s ∧
    (disk_status DEV_MMC s).1 = 0 ∧
    (disk_status DEV_USB s).1 = 0 := by
  refine ⟨?_, ?_, rfl, rfl, rfl, rfl⟩
  · unfold MMC_disk_status_of
    by_cases hp : present = 0
    · rw [if_pos hp, if_pos hp]
    · rw [if_neg hp, if_neg hp]
      by_cases hi : initialized = 0
      · rw [if_pos hi, if_pos hi]
      · rw [if_neg hi, if_neg hi]
        by_cases hc : comm ≠ 0
        · simp only [if_pos hc]
        · simp only [if_neg hc]
  · unfold USB_disk_status_of
    by_cases hp : connected = 0
    · rw [if_pos hp, if_pos hp]
    · rw [if_neg hp, if_neg hp]
      by_cases hi : initialized = 0
      · rw [if_pos hi, if_pos hi]
      · rw [if_neg hi, if_neg hi]
        by_cases hr : ready = 0
        · rw [if_pos hr, if_pos hr]
        · rw [if_neg hr, if_neg hr]
          by_cases hc : comm ≠ 0
          · rw [if_pos hc, if_pos hc]
          · rw [if_neg hc, if_neg hc]

/-! ## C17: device isolation -/

theorem OthersUnchanged_refl (pdrv : Nat) (s : State) : OthersUnchanged pdrv s s :=
  ⟨fun _ => rfl, fun _ => rfl, fun _ => rfl⟩

/-- The state after `disk_write` is the state before, except that a call on the RAM drive
may have replaced the bytes of the block. -/
theorem disk_write_effect {T : CTypes} {hw : HW} {pdrv : Nat} {s : State} {buff : List BYTE}
    {sector count : Nat} {r : DRESULT × State}
    (h : disk_write T hw pdrv s buff sector count = some r) :
    r.2 = s ∨ (pdrv = DEV_RAM ∧ ∃ mem1, r.2 = { s with ram_disk_buffer := some mem1 }) := by
  unfold disk_write at h
  by_cases h0 : pdrv = DEV_RAM
  · rw [if_pos h0] at h
    by_cases hp : RAM_is_write_protected s ≠ 0
    · rw [if_pos hp] at h
      rw [← Option.some.inj h]; exact Or.inl rfl
    · rw [if_neg hp] at h
      cases hw1 : RAM_disk_write T s buff sector count with
      | none => rw [hw1] at h; exact Option.noConfusion h
      | some r1 =>
        rw [hw1] at h
        have e := Option.some.inj h
        have e2 : r.2 = r1.2 := by
          rw [← e]
          dsimp only
          by_cases hc : r1.1 ≠ 0
          · rw [if_pos hc]
          · rw [if_neg hc]
        rcases RAM_disk_write_effect hw1 with he | ⟨mem, mem1, _, _, he⟩
        · exact Or.inl (e2.trans he)
        · exact Or.inr ⟨h0, mem1, e2.trans he⟩
  · rw [if_neg h0] at h
    by_cases h1 : pdrv = DEV_MMC
    · rw [if_pos h1] at h
      by_cases hp : MMC_is_write_protected ≠ 0
      · rw [if_pos hp] at h
        rw [← Option.some.inj h]; exact Or.inl rfl
      · rw [if_neg hp] at h
        by_cases hc : MMC_disk_write hw buff sector count ≠ 0
        · rw [if_pos hc] at h
          rw [← Option.some.inj h]; exact Or.inl rfl
        · rw [if_neg hc] at h
          rw [← Option.some.inj h]; exact Or.inl rfl
    · rw [if_neg h1] at h
      by_cases h2 : pdrv = DEV_USB
      · rw [if_pos h2] at h
        by_cases hp : USB_is_write_protected s ≠ 0
        · rw [if_pos hp] at h
          rw [← Option.some.inj h]; exact Or.inl rfl
        · rw [if_neg hp] at h
          by_cases hc : USB_disk_write hw s buff sector count ≠ 0
          · rw [if_pos hc] at h
            rw [← Option.some.inj h]; exact Or.inl rfl
          · rw [if_neg hc] at h
            rw [← Option.some.inj h]; exact Or.inl rfl
      · rw [if_neg h2] at h
        rw [← Option.some.inj h]; exact Or.inl rfl

/-- `RAM_disk_status` writes no variable other than `ram_disk_status`. -/
theorem RAM_disk_status_frame (s : State) :
    (RAM_disk_status s).2 = { s with ram_disk_status := (RAM_disk_status s).2.ram_disk_status } := by
  unfold RAM_disk_status
  by_cases h : s.ram_disk_status ≠ 0
  · rw [if_pos h]
  · rw [if_neg h]
    by_cases h2 : s.ram_disk_buffer.isNone ∨ s.ram_disk_size = 0
    · rw [if_pos h2]
    · rw [if_neg h2]

theorem OthersUnchanged_disk_status (pdrv : Nat) (s : State) :
    OthersUnchanged pdrv s (disk_status pdrv s).2 := by
  unfold disk_status
  by_cases h0 : pdrv = DEV_RAM
  · rw [if_pos h0]
    have hs : (if (RAM_disk_status s).1 ≠ 0 then (STA_NOINIT, (RAM_disk_status s).2)
        else (0, (RAM_disk_status s).2)).2 = (RAM_disk_status s).2 := by
      by_cases hr : (RAM_disk_status s).1 ≠ 0
      · rw [if_pos hr]
      · rw [if_neg hr]
    dsimp only
    rw [hs, RAM_disk_status_frame s]
    exact ⟨fun h => absurd h0 h, fun _ => rfl, fun _ => rfl⟩
  · rw [if_neg h0]
    by_cases h1 : pdrv = DEV_MMC
    · rw [if_pos h1]
      exact ⟨fun _ => rfl, fun h => absurd h1 h, fun _ => rfl⟩
    · rw [if_neg h1]
      by_cases h2 : pdrv = DEV_USB
      · rw [if_pos h2]
        exact ⟨fun _ => rfl, fun _ => rfl, fun h => absurd h2 h⟩
      · rw [if_neg h2]
        exact OthersUnchanged_refl pdrv s

/-- C17: device isolation.  For every drive number (0, 1 and 2 in particular) and all
other arguments, a call of `disk_status`, `disk_read`, `disk_write` or `disk_ioctl` leaves
the variables of the other device families as they were: on a drive other than RAM the
RAM status byte, block, capacity and write-protect flag are unchanged, on a drive other
than MMC `mmc_disk_status` and `mmc_write_protected` are unchanged, on a drive other than
USB `usb_disk_status` and `usb_write_protected` are unchanged.  On the MMC and USB drives
`disk_read` and `disk_write` always return. -/
theorem C17_device_isolation (T : CTypes) (hw : HW) (pdrv : Nat) (s : State)
    (buff : List BYTE) (sector count cmd arg : Nat) :
    OthersUnchanged pdrv s (disk_status pdrv s).2 ∧
    (∀ r, disk_read T hw pdrv s buff sector count = some r → OthersUnchanged pdrv s r.2.1) ∧
    (∀ r, disk_write T hw pdrv s buff sector count = some r → OthersUnchanged pdrv s r.2) ∧
    OthersUnchanged pdrv s (disk_ioctl pdrv cmd s arg).2.1 ∧
    (pdrv ≠ DEV_RAM → (disk_read T hw pdrv s buff sector count).isSome = true ∧
      (disk_write T hw pdrv s buff sector count).isSome = true) := by
  refine ⟨OthersUnchanged_disk_status pdrv s, ?_, ?_, ?_, ?_⟩
  · intro r hr
    rw [disk_read_state hr]
    exact OthersUnchanged_refl pdrv s
  · intro r hr
    rcases disk_write_effect hr with he | ⟨h0, mem1, he⟩
    · rw [he]; exact OthersUnchanged_refl pdrv s
    · rw [he]
      exact ⟨fun h => absurd h0 h, fun _ => rfl, fun _ => rfl⟩
  · rw [disk_ioctl_state]
    exact OthersUnchanged_refl pdrv s
  · intro h0
    constructor
    · unfold disk_read
      rw [if_neg h0]
      split
      · rfl
      · split <;> rfl
    · unfold disk_write
      rw [if_neg h0]
      split
      · split
        · rfl
        · split <;> rfl
      · split
        · split
          · rfl
          · split <;> rfl
        · rfl

/-- C17 (witness): the four entry points on the MMC drive, called on the ready 4096-byte
RAM disk. -/
theorem C17_device_isolation_witness :
    OthersUnchanged DEV_MMC ram4096 (disk_status DEV_MMC ram4096).2 ∧
    (∀ r, disk_read ilp32 hw_idle DEV_MMC ram4096 sectorAA 0 1 = some r →
      OthersUnchanged DEV_MMC ram4096 r.2.1) ∧
    (∀ r, disk_write ilp32 hw_idle DEV_MMC ram4096 sectorAA 0 1 = some r →
      OthersUnchanged DEV_MMC ram4096 r.2) ∧
    OthersUnchanged DEV_MMC ram4096 (disk_ioctl DEV_MMC GET_SECTOR_SIZE ram4096 0).2.1 ∧
    (DEV_MMC ≠ DEV_RAM → (disk_read ilp32 hw_idle DEV_MMC ram4096 sectorAA 0 1).isSome = true ∧
      (disk_write ilp32 hw_idle DEV_MMC ram4096 sectorAA 0 1).isSome = true) :=
  C17_device_isolation ilp32 hw_idle DEV_MMC ram4096 sectorAA 0 1 GET_SECTOR_SIZE 0

/-! ## C18: what a successful write changes -/

/-- A `RAM_disk_write` that returns `RES_OK` has replaced the block by the result of the
`memcpy` at the computed offset and changed nothing else: the bytes before
`start_offset` and from `start_offset + write_size` on, the capacity, the status byte and
the write-protect flag are as before. -/
theorem RAM_disk_write_frame {T : CTypes} {s s1 : State} {buff : List BYTE}
    {sector count : Nat} (h : RAM_disk_write T s buff sector count = some (RES_OK, s1)) :
    ∃ mem mem1, s.ram_disk_buffer = some mem ∧ s1 = { s with ram_disk_buffer := some mem1 } ∧
      mem1.length = mem.length ∧
      mem1.take (start_offset T sector) = mem.take (start_offset T sector) ∧
      mem1.drop (start_offset T sector + xfer_size T count) =
        mem.drop (start_offset T sector + xfer_size T count) ∧
      (mem1.drop (start_offset T sector)).take (xfer_size T count) =
        buff.take (xfer_size T count) := by
  have hno : RES_NOTRDY ≠ RES_OK := by decide
  have hpo : RES_PARERR ≠ RES_OK := by decide
  by_cases hnr : s.ram_disk_buffer = none ∨ s.ram_disk_size = 0
  · rw [RAM_disk_write_not_ready T s buff sector count hnr] at h
    exact absurd (congrArg Prod.fst (Option.some.inj h)) hno
  · have hb : s.ram_disk_buffer ≠ none := fun hb => hnr (Or.inl hb)
    have h0 : s.ram_disk_size ≠ 0 := fun h0 => hnr (Or.inr h0)
    obtain ⟨mem, hmem⟩ := Option.ne_none_iff_exists'.mp hb
    by_cases hr : s.ram_disk_size < end_offset T sector count
    · rw [RAM_disk_write_out_of_range T s buff mem sector count hmem h0 hr] at h
      exact absurd (congrArg Prod.fst (Option.some.inj h)) hpo
    · rw [RAM_disk_write_in_range T s buff mem sector count hmem h0 (Nat.not_lt.mp hr)] at h
      cases hm : memcpy mem (start_offset T sector) buff 0 (xfer_size T count) with
      | none => rw [hm] at h; exact Option.noConfusion h
      | some mem1 =>
        rw [hm] at h
        have hw := memcpy_window hm
        rw [List.drop_zero] at hw
        exact ⟨mem, mem1, hmem, (congrArg Prod.snd (Option.some.inj h)).symm,
          memcpy_length hm, memcpy_before hm, memcpy_after hm, hw⟩

/-- C18 (evaluation at the failing input): with 32-bit `LBA_t`, on the ready, zero-filled
4096-byte RAM disk, `RAM_disk_write(buf, 8388608, 1)` with a sector of `0xAA` succeeds
(`RES_OK`).  The range `[sector * 512, (sector + count) * 512)` starts at 4294967296, so
byte offset 0 lies outside it, yet the stored byte at offset 0 changes from 0 to `0xAA`;
and a read of sector 0, a range disjoint from the written one, returns zeros before the
write and the `0xAA` sector after it. -/
theorem C18_successful_write_changes_other_bytes :
    4096 ≤ 8388608 * FF_MAX_SS ∧
    ram4096.ram_disk_buffer = some (malloc_block 4096 (fun _ => 0)) ∧
    (malloc_block 4096 (fun _ => 0)).take 512 = List.replicate 512 0 ∧
    RAM_disk_read ilp32 ram4096 (List.replicate 512 0xFF) 0 1 =
      some (1, List.replicate 512 0) ∧
    ∃ s1 mem1, RAM_disk_write ilp32 ram4096 sectorAA 8388608 1 = some (RES_OK, s1) ∧
      s1.ram_disk_buffer = some mem1 ∧ mem1.take 512 = sectorAA ∧
      mem1.take 512 ≠ (malloc_block 4096 (fun _ => 0)).take 512 ∧
      RAM_disk_read ilp32 s1 (List.replicate 512 0xFF) 0 1 = some (1, sectorAA) := by
  have hz : (malloc_block 4096 (fun _ => 0)).take 512 = List.replicate 512 0 := by
    rw [malloc_block_const, List.take_replicate]
    rfl
  have o : start_offset ilp32 8388608 = start_offset ilp32 0 := by decide
  have o0 : start_offset ilp32 0 = 0 := by decide
  have x : xfer_size ilp32 1 = 512 := by decide
  have e0 : end_offset ilp32 0 1 = 512 := by decide
  have hlen : (List.replicate 512 (0xFF : BYTE)).length = 512 := List.length_replicate _ _
  obtain ⟨mem1, hm⟩ : ∃ r, memcpy (malloc_block 4096 (fun _ => 0)) 0 sectorAA 0 512 =
      some r :=
    ⟨_, memcpy_eq_some _ _ _ _ _ (by rw [malloc_block_length]; decide)
      (by rw [sectorAA_length])⟩
  have ht : mem1.take 512 = sectorAA := by
    have hw := memcpy_window hm
    rw [List.drop_zero, List.drop_zero,
      List.take_of_length_le (l := sectorAA) (by rw [sectorAA_length])] at hw
    exact hw
  have hl1 : mem1.length = 4096 := by
    rw [memcpy_length hm, malloc_block_length]
  -- reading sector 0 of a 4096-byte block `m` into a 512-byte buffer gives `m.take 512`
  have hread : ∀ (st : State) (m : List BYTE), st.ram_disk_buffer = some m →
      st.ram_disk_size = 4096 → m.length = 4096 →
      RAM_disk_read ilp32 st (List.replicate 512 0xFF) 0 1 = some (1, m.take 512) := by
    intro st m hb hs hml
    obtain ⟨out1, ho⟩ : ∃ r, memcpy (List.replicate 512 0xFF) 0 m 0
        (List.replicate 512 (0xFF : BYTE)).length = some r :=
      ⟨_, memcpy_eq_some _ _ _ _ _ (by rw [hlen]) (by rw [hlen, hml]; decide)⟩
    have hout := memcpy_whole ho
    rw [List.drop_zero, hlen] at hout
    rw [hlen] at ho
    rw [RAM_disk_read_in_range ilp32 st _ m 0 1 hb (by rw [hs]; decide)
      (by rw [e0, hs]; decide), o0, x, ho, hout]
    rfl
  refine ⟨by decide, rfl, hz, ?_, { ram4096 with ram_disk_buffer := some mem1 }, mem1, ?_,
    rfl, ht, ?_, ?_⟩
  · rw [hread ram4096 _ ram4096_buffer rfl (malloc_block_length _ _), hz]
  · rw [RAM_disk_write_congr ilp32 _ _ _ _ 1 o,
      RAM_disk_write_in_range ilp32 ram4096 _ _ 0 1 ram4096_buffer (by decide)
        (by rw [e0, ram4096_size]; decide), o0, x, hm]
    rfl
  · rw [ht, hz]
    exact sectorAA_ne_zeros
  · rw [hread { ram4096 with ram_disk_buffer := some mem1 } mem1 rfl rfl hl1, ht]

/-! ## C19: the block and its size -/

/-- C19: in every state reachable from the initial state by any sequence of calls
(failed and repeated `RAM_disk_initialize` included), an allocated block has exactly
`ram_disk_size` bytes.  Consequently, for every request that passes the readiness check
(capacity non-zero) and the range check and whose `size_t` sum
`start_offset + read_size` does not wrap (as when nothing overflows), the bytes
`[start_offset, start_offset + read_size)` that `memcpy` touches lie inside the block, and
`RAM_disk_read` returns 1 and `RAM_disk_write` returns `RES_OK` whenever the caller's
buffer holds that many bytes (no access outside either object). -/
theorem C19_block_size_and_bounds (T : CTypes) (s : State) (mem : List BYTE)
    (hreach : Reachable T s) (hb : s.ram_disk_buffer = some mem) :
    mem.length = s.ram_disk_size ∧
    ∀ sector count, s.ram_disk_size ≠ 0 → end_offset T sector count ≤ s.ram_disk_size →
      start_offset T sector + xfer_size T count < 2 ^ T.size_bits →
      start_offset T sector + xfer_size T count ≤ mem.length ∧
      (∀ buff, xfer_size T count ≤ buff.length →
        ∃ out1, RAM_disk_read T s buff sector count = some (1, out1)) ∧
      (∀ buff, xfer_size T count ≤ buff.length →
        ∃ s1, RAM_disk_write T s buff sector count = some (RES_OK, s1)) := by
  have hlen : mem.length = s.ram_disk_size := (RamInv_of_Reachable hreach).1 mem hb
  refine ⟨hlen, ?_⟩
  intro sector count h0 hr hsum
  have hin : start_offset T sector + xfer_size T count ≤ mem.length := by
    unfold end_offset at hr
    rw [Nat.mod_eq_of_lt hsum] at hr
    rw [hlen]
    exact hr
  refine ⟨hin, ?_, ?_⟩
  · intro buff hbuff
    obtain ⟨out1, ho⟩ : ∃ r, memcpy buff 0 mem (start_offset T sector) (xfer_size T count) =
        some r := ⟨_, memcpy_eq_some _ _ _ _ _ (by omega) hin⟩
    refine ⟨out1, ?_⟩
    rw [RAM_disk_read_in_range T s buff mem sector count hb h0 hr, ho]
    rfl
  · intro buff hbuff
    obtain ⟨mem1, hm⟩ : ∃ r, memcpy mem (start_offset T sector) buff 0 (xfer_size T count) =
        some r := ⟨_, memcpy_eq_some _ _ _ _ _ hin (by omega)⟩
    refine ⟨{ s with ram_disk_buffer := some mem1 }, ?_⟩
    rw [RAM_disk_write_in_range T s buff mem sector count hb h0 hr, hm]
    rfl

/-- The size of the block in every reachable state, allocated or not: the invariant of
C19 without any request. -/
theorem Reachable_block_size {T : CTypes} {s : State} (hreach : Reachable T s) :
    BlockMatchesSize s :=
  (RamInv_of_Reachable hreach).1

/-- C19 (witness): the ready 4096-byte RAM disk, reached by a successful initialisation,
a failed one (which leaves the buffer `NULL` and `ram_disk_size` stale at 4096) and a
second successful one, and the request for its last sector. -/
theorem C19_block_size_and_bounds_witness :
    (run ilp32 [Op.ram_init 4096 (some (fun _ => 0)), Op.ram_init 8192 none] initState).map
        (fun st => (st.ram_disk_buffer, st.ram_disk_size)) = some (none, 4096) ∧
    (malloc_block 4096 (fun _ => 0)).length = ram4096.ram_disk_size ∧
    ∀ sector count, ram4096.ram_disk_size ≠ 0 →
      end_offset ilp32 sector count ≤ ram4096.ram_disk_size →
      start_offset ilp32 sector + xfer_size ilp32 count < 2 ^ ilp32.size_bits →
      start_offset ilp32 sector + xfer_size ilp32 count ≤
        (malloc_block 4096 (fun _ => 0)).length ∧
      (∀ buff, xfer_size ilp32 count ≤ buff.length →
        ∃ out1, RAM_disk_read ilp32 ram4096 buff sector count = some (1, out1)) ∧
      (∀ buff, xfer_size ilp32 count ≤ buff.length →
        ∃ s1, RAM_disk_write ilp32 ram4096 buff sector count = some (RES_OK, s1)) :=
  ⟨rfl,
    C19_block_size_and_bounds ilp32 ram4096 (malloc_block 4096 (fun _ => 0))
      ⟨[Op.ram_init 4096 (some (fun _ => 0)), Op.ram_init 8192 none,
        Op.ram_init 4096 (some (fun _ => 0))], rfl⟩
      ram4096_buffer⟩

end Diskio
